import Mathlib

set_option maxRecDepth 100000

/-!
Shallow embedding of the import synchronization engine of `bsimport`
(file `bsimport/imp.py`) together with theorems checking the
natural-language specification against it.

Modelling conventions:
* Python strings are modelled as `List Char` (`Str` below); Python
  `bytes` as `List Nat`.
* Python integers are modelled as `Int` (the code uses `-1` sentinels).
* Python exceptions (`ValueError`, `AttributeError`, `IndexError`) are
  modelled by `Except` with error type `PyErr`; loops of the source whose
  termination is not structural take an explicit fuel argument and report
  `PyErr.outOfFuel` when it runs out (no theorem below depends on the
  fuel value of a run that succeeds).
* The sqlite store, the MySQL source catalog, the filesystem and the
  Bookstack wiki client are external collaborators of `imp.py`; they are
  modelled as explicit state / read-only data threaded through the
  functions (see `Sq3`, `MyDb`, `FS`, `Wiki` below).
-/

deriving instance DecidableEq for Except

/-- Python strings are modelled as lists of characters. -/
abbrev Str := List Char

/-- Coerce a Lean string literal into the model type. -/
def str (s : String) : Str := s.data

/-- Python whitespace test (ASCII subset of `str.isspace`, which is what
`strip` and the regular expression class `\s` use on the inputs of this
program). -/
def pyIsSpace (c : Char) : Bool :=
  c = ' ' || c = '\t' || c = '\n' || c = '\r' || c = '\x0b' || c = '\x0c'

/-- Python `s.lstrip()` (strip leading whitespace). -/
def lstripWs (s : Str) : Str := s.dropWhile pyIsSpace

/-- Python `s.rstrip()` (strip trailing whitespace). -/
def rstripWs (s : Str) : Str := (s.reverse.dropWhile pyIsSpace).reverse

/-- Python `s.lstrip(chars)`: strip any leading characters from the set. -/
def lstripChars (cs : List Char) (s : Str) : Str := s.dropWhile (fun c => cs.contains c)

/-- Python `s.rstrip(chars)`: strip any trailing characters from the set. -/
def rstripChars (cs : List Char) (s : Str) : Str :=
  (s.reverse.dropWhile (fun c => cs.contains c)).reverse

/-- Python `s.startswith(pre)`. -/
def strStartsWith (s pre : Str) : Bool := pre.isPrefixOf s

/-- Index of the leftmost occurrence of `needle` in `haystack`
(Python `haystack.index(needle)` returns this, `needle in haystack`
tests for its existence). -/
def findSub (needle : Str) : Str → Option Nat
  | [] => if needle = [] then some 0 else none
  | c :: rest =>
    if needle.isPrefixOf (c :: rest) then some 0
    else match findSub needle rest with
      | some i => some (i + 1)
      | none => none

/-- Python `needle in haystack`. -/
def containsSub (needle haystack : Str) : Bool := (findSub needle haystack).isSome

/-- Auxiliary recursion for `strReplace`.  The fuel starts at the length
of the string; every step consumes at least one character, so the
`0, s` fallback is never reached from `strReplace` (structural recursion
keeps the definition kernel-evaluable). -/
def strReplaceAux (old new : Str) : Nat → Str → Str
  | _, [] => []
  | 0, s => s
  | fuel + 1, c :: rest =>
    if old ≠ [] ∧ old.isPrefixOf (c :: rest) then
      new ++ strReplaceAux old new fuel ((c :: rest).drop old.length)
    else
      c :: strReplaceAux old new fuel rest

/-- Python `s.replace(old, new)`: replace every non-overlapping occurrence
of `old`, scanning left to right.  All call sites of `replace` in
`imp.py` pass a non-empty `old`; for `old = []` this definition is the
identity. -/
def strReplace (old new s : Str) : Str := strReplaceAux old new s.length s

/-- Python `s.split(sep)` for a single-character separator. -/
def splitOnChar (sep : Char) : Str → List Str
  | [] => [[]]
  | c :: rest =>
    match splitOnChar sep rest with
    | [] => [[c]]
    | h :: t => if c = sep then [] :: h :: t else (c :: h) :: t

/-- Auxiliary recursion for `splitOnSeq`, fueled like `strReplaceAux`. -/
def splitOnSeqAux (sep : Str) : Nat → Str → List Str
  | _, [] => [[]]
  | 0, s => [s]
  | fuel + 1, c :: rest =>
    if sep ≠ [] ∧ sep.isPrefixOf (c :: rest) then
      [] :: splitOnSeqAux sep fuel ((c :: rest).drop sep.length)
    else match splitOnSeqAux sep fuel rest with
      | [] => [[c]]
      | h :: t => (c :: h) :: t

/-- Python `s.split(sep)` for a multi-character separator. -/
def splitOnSeq (sep s : Str) : List Str := splitOnSeqAux sep s.length s

/-- Python `s.lower()` (ASCII lowering, as used on the titles here). -/
def pyLower (s : Str) : Str := s.map Char.toLower

/-- Concatenation of a list of strings (Python `''.join(lines)`). -/
def joinStr (ls : List Str) : Str := ls.foldr (fun a b => a ++ b) []

/-- Python list/str slicing `l[i:]` including the negative-index case
(`l[-1:]` is the last element). -/
def pySliceFrom (l : List Str) (i : Int) : List Str :=
  if i < 0 then l.drop (l.length - (-i).toNat) else l.drop i.toNat

/-- Python exceptions raised by the code paths modelled here. -/
inductive PyErr where
  | valueError (msg : Str)
  | attributeError (msg : Str)
  | indexError (msg : Str)
  | outOfFuel
deriving DecidableEq

/-- Python `int(s)` as used in `imp.py` (digit sequences, optionally
signed and surrounded by whitespace); anything else raises `ValueError`. -/
def pyInt (s : Str) : Except PyErr Int :=
  let t := lstripWs (rstripWs s)
  let (neg, digits) :=
    match t with
    | '-' :: ds => (true, ds)
    | '+' :: ds => (false, ds)
    | ds => (false, ds)
  if digits ≠ [] ∧ digits.all Char.isDigit then
    let n : Nat := digits.foldl (fun acc c => 10 * acc + (c.toNat - 48)) 0
    .ok (if neg then -(n : Int) else (n : Int))
  else
    .error (.valueError (str "invalid literal for int"))

/-- Python `str(i)` for an integer. -/
def pyStrInt (i : Int) : Str := (toString i).data

/-- A tag dictionary: front-matter tags carry only a name, catalog tags
carry a name and a value (two different dict shapes in the source). -/
structure Tag where
  name : Str
  value : Option Str
deriving DecidableEq

/-- Dynamically typed payload of an `IResponse` (page ids are ints,
messages are strings). -/
inductive PyData where
  | int (i : Int)
  | str (s : Str)
deriving DecidableEq

/-- The `IResponse` named tuple of `imp.py`: an error code and the data. -/
structure IResponse where
  error : Int
  data : PyData
deriving DecidableEq

/-- Success code imported from the `bsimport` package. -/
def SUCCESS : Int := 0

/-- Modelled from the spec: `FILE_READ_ERROR` lives in the `bsimport`
package root which is not under `src/`; per the spec it is a distinct
non-zero error code for an inaccessible source file. -/
def FILE_READ_ERROR : Int := 1

/-- Modelled from the spec: `EMPTY_FILE_ERROR` lives in the `bsimport`
package root which is not under `src/`; per the spec it is a distinct
non-zero error code for a zero-length source document. -/
def EMPTY_FILE_ERROR : Int := 2

/-- Result of `_parse_front_matter`: the function returns a 2-tuple
`(tags, end)` when the first line does not open a front-matter block and
a 4-tuple `(title, header, tags, end)` otherwise. -/
inductive FMResult where
  | pair (tags : List Tag) (endPos : Int)
  | quad (title : Str) (header : Str) (tags : List Tag) (endPos : Int)
deriving DecidableEq

/-- Loop body of `_parse_front_matter` over `content[1:]`: accumulates
the indented `header`, the `Title` value and the raw `tags` list `tmp`;
stops with `end = count + 1` at a closing `---` line. -/
def fmLoop (lines : List Str) (count : Nat) (header title : Str) (tmp : List Str) :
    Str × Str × List Str × Int :=
  match lines with
  | [] => (title, header, tmp, -1)
  | line :: rest =>
    if strStartsWith line (str "---") then
      (title, header, tmp, ((count : Int) + 1))
    else
      let header := header ++ str "    " ++ line
      match splitOnChar ':' line with
      | [] => fmLoop rest (count + 1) header title tmp
      | [_] => fmLoop rest (count + 1) header title tmp
      | l0 :: l1 :: _ =>
        let title := if l0 = str "Title" then lstripWs (rstripWs l1) else title
        if l0 ≠ str "tags" then
          fmLoop rest (count + 1) header title tmp
        else
          let t := lstripWs (rstripWs l1)
          let t := rstripChars [']'] t
          let t := lstripChars ['['] t
          fmLoop rest (count + 1) header title (splitOnSeq (str ", ") t)

/-- `Importer._parse_front_matter`.  Mirrors the source exactly,
including the early return of a 2-tuple when the first line does not
start with `---` (the caller unpacks four values, so that case makes
`_parse_file` raise; see `FMResult`). -/
def parse_front_matter (content : List Str) : Except PyErr FMResult :=
  match content with
  | [] => .error (.indexError (str "list index out of range"))
  | c0 :: rest =>
    if ¬ strStartsWith c0 (str "---") then
      .ok (.pair [] (-1))
    else
      match fmLoop rest 0 [] [] [] with
      | (title, header, tmp, e) =>
        .ok (.quad title header (tmp.map (fun t => ⟨t, none⟩)) e)

/-- Scan loop of `_parse_file` over `content[start:]`: consumes an `# `
title line while `name` is still empty, and breaks at the first other
line, recording the absolute index where the body text starts (or `-1`
when the scan exhausts the lines). -/
def pfLoop (lines : List Str) (count start : Nat) (name : Str) : Str × Int :=
  match lines with
  | [] => (name, -1)
  | line :: rest =>
    if name = [] ∧ strStartsWith line (str "# ") then
      pfLoop rest (count + 1) start (lstripChars ['#', ' '] (rstripWs line))
    else
      (name, ((count + start : Nat) : Int))

/-- `Importer._parse_file`: front matter, then title/body scan.  Note
`''.join(content[text_start:])` is Python slicing, so a `text_start`
that stays `-1` selects the final line. -/
def parse_file (content : List Str) : Except PyErr (Str × Str × List Tag) :=
  match parse_front_matter content with
  | .error e => .error e
  | .ok (.pair _ _) =>
    .error (.valueError (str "not enough values to unpack (expected 4, got 2)"))
  | .ok (.quad name0 header tags e) =>
    let start : Nat := if e = -1 then 0 else e.toNat + 1
    match pfLoop (content.drop start) 0 start name0 with
    | (name, textStart) =>
      let text := joinStr (pySliceFrom content textStart)
      let text :=
        if header ≠ [] then str "---\n" ++ header ++ str "---\n\n" ++ text
        else text
      .ok (name, text, tags)

/-- Row of the sqlite `books` table. -/
structure BookRow where
  src_id : Int
  bs_id : Int
  bs_slug : Str
deriving DecidableEq

/-- Row of the sqlite `pages` table.  The slug columns may hold SQL NULL
(`remember_page` takes them as optional parameters), hence `Option`. -/
structure PageRow where
  src_page_id : Int
  bs_page_id : Int
  bs_book_id : Int
  bs_book_slug : Option Str
  bs_page_slug : Option Str
  bs_page_title : Str
  content_md5sum : Str
deriving DecidableEq

/-- Row of the sqlite `attachments` table.  The page id column receives
whatever dynamic value the caller passed, hence `PyData`. -/
structure AttRow where
  filename : Str
  bs_page_id : PyData
  bs_att_id : Int
deriving DecidableEq

/-- The sqlite store (`bsimport.sqlite3`): the three tables created by
`connect_sqlite`.  A `SELECT ... fetchone()` without ORDER BY returns the
first row in insertion (rowid) order, modelled by `List.find?` on lists
kept in insertion order. -/
structure Sq3 where
  books : List BookRow
  pages : List PageRow
  attachments : List AttRow
deriving DecidableEq

/-- One call made to the external Bookstack wiki client. -/
inductive WikiCall where
  | createBook (name : Sum IResponse Str)
  | createPage (name : Str) (text : Str) (tags : Option (List Tag)) (target : Sum Int Int)
  | updatePage (book_id page_id : Int) (name : Str) (text : Str) (tags : Option (List Tag))
  | createAttachment (filename : Str) (page_id : PyData)
deriving DecidableEq

/-- Modelled from the spec: the Bookstack API wrapper
(`bsimport.wrapper`, not under `src/`) returns `(error, payload)` pairs;
a healthy wiki is modelled as always succeeding (`error = 0`) and handing
out fresh integer ids, while recording every call. -/
structure Wiki where
  nextId : Int
  log : List WikiCall
deriving DecidableEq

/-- Wrapper `create_book`: success plus a fresh book id. -/
def Wiki.create_book (w : Wiki) (name : Sum IResponse Str) : (Int × Int) × Wiki :=
  ((0, w.nextId), ⟨w.nextId + 1, w.log ++ [.createBook name]⟩)

/-- Wrapper `create_page`: success plus a fresh page id. -/
def Wiki.create_page (w : Wiki) (name text : Str) (tags : Option (List Tag))
    (target : Sum Int Int) : (Int × Int) × Wiki :=
  ((0, w.nextId), ⟨w.nextId + 1, w.log ++ [.createPage name text tags target]⟩)

/-- Wrapper `update_page`: success plus a message. -/
def Wiki.update_page (w : Wiki) (book_id page_id : Int) (name text : Str)
    (tags : Option (List Tag)) : (Int × Str) × Wiki :=
  ((0, []), ⟨w.nextId, w.log ++ [.updatePage book_id page_id name text tags]⟩)

/-- Wrapper `create_attachment`: success plus a fresh attachment id. -/
def Wiki.create_attachment (w : Wiki) (filename : Str) (page_id : PyData) :
    (Int × Int) × Wiki :=
  ((0, w.nextId), ⟨w.nextId + 1, w.log ++ [.createAttachment filename page_id]⟩)

/-- Row of the MySQL `resource_book_page` catalog table, in table order. -/
structure RBPRow where
  book : Int
  page : Int
  display_order : Int
deriving DecidableEq

/-- Row of the MySQL tag tables, joined per page. -/
structure TagRow where
  page : Int
  family : Str
  tagname : Str
deriving DecidableEq

/-- The read-only MySQL source catalog. -/
structure MyDb where
  rbp : List RBPRow
  tags : List TagRow
deriving DecidableEq

/-- Stable insertion into a list sorted by `le`. -/
def insertLe (le : α → α → Bool) (a : α) : List α → List α
  | [] => [a]
  | b :: l => if le a b then a :: b :: l else b :: insertLe le a l

/-- Stable sort by `le` (models a deterministic ORDER BY). -/
def sortByLe (le : α → α → Bool) (l : List α) : List α :=
  l.foldr (insertLe le) []

/-- Query of `import_books`: page ids from `resource_book_page` ordered
by `(resource_book_id, display_order)`. -/
def MyDb.orderedPages (db : MyDb) : List Int :=
  (sortByLe
    (fun a b => a.book < b.book || (a.book == b.book && a.display_order ≤ b.display_order))
    db.rbp).map (fun r => r.page)

/-- Query of `import_doc`: the books owning a page, in table order (the
query has no ORDER BY). -/
def MyDb.booksOfPage (db : MyDb) (src_page_id : Int) : List Int :=
  (db.rbp.filter (fun r => r.page == src_page_id)).map (fun r => r.book)

/-- Query of `import_page`: the catalog tags of a page
(`{'name': family, 'value': name}` dicts). -/
def MyDb.tagsOfPage (db : MyDb) (src_page_id : Int) : List Tag :=
  (db.tags.filter (fun r => r.page == src_page_id)).map (fun r => ⟨r.family, some r.tagname⟩)

/-- `Importer.first_page_of_book`: is the page the first of the book by
display order? -/
def first_page_of_book (db : MyDb) (src_book_id src_page_id : Int) : Bool :=
  match sortByLe (fun a b => a.display_order ≤ b.display_order)
      (db.rbp.filter (fun r => r.book == src_book_id)) with
  | [] => false
  | r :: _ => r.page == src_page_id

/-- A file on disk: its name and raw bytes. -/
structure FSFile where
  name : Str
  bytes : List Nat
deriving DecidableEq

/-- The filesystem under the import path: the `docs` directory (file
name to text content; `none` content means the file exists but reading
raises `OSError`), and the per-page `images` and `files` directories
keyed by directory name (an absent key is a missing directory). -/
structure FS where
  docs : List (Str × Option (List Str))
  images : List (Str × List FSFile)
  files : List (Str × List FSFile)

/-- First-match association lookup (also used for missing directories). -/
def assocLookup (k : Str) : List (Str × α) → Option α
  | [] => none
  | (k2, v) :: rest => if k2 = k then some v else assocLookup k rest

/-- Read-only context of a run: the digest function (abstracting
`hashlib.md5(...).hexdigest()`, an external library call whose only
property used by the code is that it is a function of the content), the
MySQL catalog and the filesystem. -/
structure Ctx where
  digest : Str → Str
  mydb : MyDb
  fs : FS

/-- Mutable state of a run: the sqlite store and the wiki. -/
structure St where
  sq3 : Sq3
  wiki : Wiki
deriving DecidableEq

/-- Python `==` between an `IResponse` data value and an integer column. -/
def pyDataEqInt (d : PyData) (i : Int) : Bool :=
  match d with
  | .int j => j == i
  | .str _ => false

/-- Python `str(x)` of an `IResponse` data value. -/
def pyStrData (d : PyData) : Str :=
  match d with
  | .int i => pyStrInt i
  | .str s => s

/-- Python f-string rendering of a nullable column (`None` prints as
the string `None`). -/
def optStr : Option Str → Str
  | some s => s
  | none => str "None"

/-- `Importer.create_book` (wrapper call wrapped into an `(error, data)`
pair; the only caller unpacks the `IResponse` as a tuple). -/
def create_book (st : St) (name : Sum IResponse Str) : (Int × Int) × St :=
  let ((error, data), w) := st.wiki.create_book name
  ((if error ≠ 0 then error else SUCCESS, data), ⟨st.sq3, w⟩)

/-- `Importer.get_or_create_book`: look the book mapping up; on a miss
create the book, derive the slug with `page_title.lower().replace(' ', '-')`
(an `AttributeError` when `page_title` is an `IResponse` tuple), insert
the mapping and return it. -/
def get_or_create_book (st : St) (src_book_id : Int) (page_title : Sum IResponse Str) :
    Except (PyErr × St) ((Int × Str) × St) :=
  match st.sq3.books.find? (fun r => r.src_id == src_book_id) with
  | some row => .ok ((row.bs_id, row.bs_slug), st)
  | none =>
    let ((error, data), st) := create_book st page_title
    if error ≠ 0 then
      .error (.valueError (str "create book failed"), st)
    else
      match page_title with
      | .inl _ => .error (.attributeError (str "IResponse has no attribute lower"), st)
      | .inr t =>
        let bs_id := data
        let bs_slug := strReplace [' '] ['-'] (pyLower t)
        .ok ((bs_id, bs_slug),
          ⟨⟨st.sq3.books ++ [⟨src_book_id, bs_id, bs_slug⟩], st.sq3.pages, st.sq3.attachments⟩,
            st.wiki⟩)

/-- `Importer.get_page`: destination page id for a source page within a
destination book, `-1` when unmapped. -/
def get_page (sq3 : Sq3) (bs_book_id src_page_id : Int) : Int :=
  match sq3.pages.find? (fun r => r.src_page_id == src_page_id && r.bs_book_id == bs_book_id) with
  | some row => row.bs_page_id
  | none => -1

/-- `Importer.remember_page`: insert a `pages` row with the digest of the
content. -/
def remember_page (digest : Str → Str) (sq3 : Sq3) (bs_book_id : Int)
    (bs_book_slug : Option Str) (src_page_id bs_page_id : Int)
    (bs_page_slug : Option Str) (bs_page_title : Str) (content : Str) : Sq3 :=
  ⟨sq3.books,
    sq3.pages ++ [⟨src_page_id, bs_page_id, bs_book_id, bs_book_slug, bs_page_slug,
      bs_page_title, digest content⟩],
    sq3.attachments⟩

/-- `Importer.check_for_new_content`: `False` when a row for the page
exists with an identical digest; otherwise `True`, updating the stored
digest when a row exists. -/
def check_for_new_content (digest : Str → Str) (sq3 : Sq3) (bs_book_id bs_page_id : Int)
    (content : Str) : Bool × Sq3 :=
  let content_md5sum := digest content
  match sq3.pages.find? (fun r => r.bs_book_id == bs_book_id && r.bs_page_id == bs_page_id) with
  | some row =>
    if row.content_md5sum = content_md5sum then (false, sq3)
    else
      (true,
        ⟨sq3.books,
          sq3.pages.map (fun r =>
            if r.bs_book_id == bs_book_id && r.bs_page_id == bs_page_id then
              ⟨r.src_page_id, r.bs_page_id, r.bs_book_id, r.bs_book_slug, r.bs_page_slug,
                r.bs_page_title, content_md5sum⟩
            else r),
          sq3.attachments⟩)
  | none => (true, sq3)

/-- Loop of `Importer.import_attachments` over the files of the page's
attachment directory. -/
def import_attachments_loop (st : St) (entries : List FSFile) (bs_page_id : PyData) :
    IResponse × St :=
  match entries with
  | [] => (⟨SUCCESS, .str []⟩, st)
  | f :: rest =>
    match st.sq3.attachments.find?
        (fun r => r.filename == f.name && decide (r.bs_page_id = bs_page_id)) with
    | some _ => import_attachments_loop st rest bs_page_id
    | none =>
      let ((error, data), w) := st.wiki.create_attachment f.name bs_page_id
      let st : St := ⟨st.sq3, w⟩
      if error ≠ 0 then (⟨error, .int data⟩, st)
      else
        let st : St :=
          ⟨⟨st.sq3.books, st.sq3.pages, st.sq3.attachments ++ [⟨f.name, bs_page_id, data⟩]⟩,
            st.wiki⟩
        import_attachments_loop st rest bs_page_id

/-- `Importer.import_attachments`: upload the page's attachment files,
skipping the ones already recorded for that page. -/
def import_attachments (ctx : Ctx) (st : St) (dirname : Str) (bs_page_id : PyData) :
    IResponse × St :=
  match assocLookup dirname ctx.fs.files with
  | none => (⟨SUCCESS, .str []⟩, st)
  | some entries => import_attachments_loop st entries bs_page_id

/-- One character of the standard base64 alphabet. -/
def b64Char (n : Nat) : Char :=
  if n < 26 then Char.ofNat (65 + n)
  else if n < 52 then Char.ofNat (97 + (n - 26))
  else if n < 62 then Char.ofNat (48 + (n - 52))
  else if n = 62 then '+' else '/'

/-- Python `base64.b64encode` over a byte list (values below 256). -/
def b64encode : List Nat → Str
  | [] => []
  | [a] => [b64Char (a / 4), b64Char (a % 4 * 16), '=', '=']
  | [a, b] => [b64Char (a / 4), b64Char (a % 4 * 16 + b / 16), b64Char (b % 16 * 4), '=']
  | a :: b :: c :: rest =>
    [b64Char (a / 4), b64Char (a % 4 * 16 + b / 16), b64Char (b % 16 * 4 + c / 64),
      b64Char (c % 64)] ++ b64encode rest

/-- Python `pathlib.Path(...).suffix` of a file name. -/
def pathSuffix (name : Str) : Str :=
  match findSub ['.'] name.reverse with
  | none => []
  | some j =>
    let i := name.length - 1 - j
    if i = 0 then [] else name.drop i

/-- Python `pathlib.Path(...).stem` of a file name. -/
def pathStem (name : Str) : Str :=
  match findSub ['.'] name.reverse with
  | none => name
  | some j =>
    let i := name.length - 1 - j
    if i = 0 then name else name.take i

/-- Image-inlining pass of `import_page` (lines 531-539): for each file
of the page's image directory named `{src_page_id}-...`, replace the
relative image link with a base64 data URI. -/
def images_pass (entries : List FSFile) (src_page_id : Int) (text : Str) : Str :=
  match entries with
  | [] => text
  | f :: rest =>
    let text :=
      if strStartsWith f.name (pyStrInt src_page_id ++ ['-']) then
        let encoded := b64encode f.bytes
        let extension := strReplace ['.'] [] (pathSuffix f.name)
        let image := str "(data:image/" ++ extension ++ str ";base64," ++ encoded ++ [')']
        strReplace (str "(../images/" ++ pyStrInt src_page_id ++ ['/'] ++ f.name ++ [')'])
          image text
      else text
    images_pass rest src_page_id text

/-- Cross-document link pass of `import_page` (lines 541-557): rewrite
`(../docs/{id}-...)` to `(/books/{book_slug}/page/{page_slug})` when the
target page is mapped; otherwise leave it and move past it. -/
def docs_pass (sq3 : Sq3) : Nat → Nat → Str → Except PyErr Str
  | 0, _, _ => .error .outOfFuel
  | fuel + 1, pos, text =>
    match findSub (str "(../docs/") (text.drop pos) with
    | none => .ok text
    | some idx =>
      let pos := pos + idx + (str "(../docs/").length
      let target := text.drop pos
      match findSub [')'] target with
      | none => .error (.valueError (str "substring not found"))
      | some j =>
        let target := target.take j
        match findSub ['-'] target with
        | none => .error (.valueError (str "substring not found"))
        | some k =>
          match pyInt (target.take k) with
          | .error e => .error e
          | .ok target_page_id =>
            match sq3.pages.find? (fun r => r.src_page_id == target_page_id) with
            | some row =>
              docs_pass sq3 fuel pos
                (strReplace (str "(../docs/" ++ target ++ [')'])
                  (str "(/books/" ++ optStr row.bs_book_slug ++ str "/page/" ++
                    optStr row.bs_page_slug ++ [')'])
                  text)
            | none => docs_pass sq3 fuel pos text

/-- Attachment link pass of `import_page` (lines 559-574): rewrite
`(../files/{any}/{filename})` to `(/attachments/{att_id})` using the
first `attachments` row matching the file name alone (the page id is not
part of the query). -/
def files_pass (sq3 : Sq3) : Nat → Nat → Str → Except PyErr Str
  | 0, _, _ => .error .outOfFuel
  | fuel + 1, pos, text =>
    match findSub (str "(../files/") (text.drop pos) with
    | none => .ok text
    | some idx =>
      let pos := pos + idx + (str "(../files/").length
      let target := text.drop pos
      match findSub [')'] target with
      | none => .error (.valueError (str "substring not found"))
      | some j =>
        let target := target.take j
        match findSub ['/'] target with
        | none => .error (.valueError (str "substring not found"))
        | some k =>
          let filename := target.drop (k + 1)
          match sq3.attachments.find? (fun r => r.filename == filename) with
          | some row =>
            files_pass sq3 fuel pos
              (strReplace (str "(../files/" ++ target ++ [')'])
                (str "(/attachments/" ++ pyStrInt row.bs_att_id ++ [')'])
                text)
          | none => files_pass sq3 fuel pos text

/-- Vimeo shortcode pass of `import_page` (lines 576-589): expand
`[vimeo:{id}:{width}:{height}]` into an iframe embed. -/
def vimeo_pass : Nat → Nat → Str → Except PyErr Str
  | 0, _, _ => .error .outOfFuel
  | fuel + 1, pos, text =>
    match findSub (str "[vimeo:") (text.drop pos) with
    | none => .ok text
    | some idx =>
      let pos := pos + idx + (str "[vimeo:").length
      let video := text.drop pos
      match findSub [']'] video with
      | none => .error (.valueError (str "substring not found"))
      | some j =>
        let video := video.take j
        match findSub [':'] video with
        | none => .error (.valueError (str "substring not found"))
        | some k =>
          let video_id := video.take k
          let video := video.drop (video_id.length + 1)
          match findSub [':'] video with
          | none => .error (.valueError (str "substring not found"))
          | some m =>
            let width := video.take m
            let video := video.drop (width.length + 1)
            let height := video
            let video_iframe :=
              str "<iframe src=\"https://player.vimeo.com/video/" ++ video_id ++
              str "?title=0&amp;byline=0&amp;portrait=0&amp;color=8dc7dc\" width=\"" ++
              width ++ str "\" height=\"" ++ height ++
              str "\" allowfullscreen=\"allowfullscreen\"></iframe>"
            vimeo_pass fuel pos
              (strReplace
                (str "[vimeo:" ++ video_id ++ [':'] ++ width ++ [':'] ++ height ++ [']'])
                video_iframe text)

/-- Bare-link pass of `import_page` (lines 591-597): wrap a parenthesized
` (https://...)` URL into a Markdown link. -/
def links_pass : Nat → Nat → Str → Except PyErr Str
  | 0, _, _ => .error .outOfFuel
  | fuel + 1, pos, text =>
    match findSub (str " (https://") (text.drop pos) with
    | none => .ok text
    | some idx =>
      let pos := pos + idx + (str " (").length
      let link := text.drop pos
      match findSub [')'] link with
      | none => .error (.valueError (str "substring not found"))
      | some j =>
        let link := link.take j
        links_pass fuel pos
          (strReplace (str " (" ++ link ++ [')'])
            (str " ([" ++ link ++ str "](" ++ link ++ str "))")
            text)

/-- Leftmost match of the regular expression `\n#+[^\s^#]` (the class
excludes whitespace, the caret and the hash): returns relative
`(start, end)`. -/
def searchHash1 : Str → Nat → Option (Nat × Nat)
  | [], _ => none
  | c :: rest, i =>
    if c = '\n' then
      let k := (rest.takeWhile (fun d => d = '#')).length
      match rest.drop k with
      | [] => searchHash1 rest (i + 1)
      | d :: _ =>
        if k ≥ 1 ∧ ¬ pyIsSpace d ∧ d ≠ '^' ∧ d ≠ '#' then some (i, i + k + 2)
        else searchHash1 rest (i + 1)
    else searchHash1 rest (i + 1)

/-- Leftmost match of the regular expression `\n#+[^\s]`: unlike
`searchHash1` the class admits `#`, so a trailing run of two or more
hashes matches by backtracking (`#+` gives one hash back to the class). -/
def searchHash2 : Str → Nat → Option (Nat × Nat)
  | [], _ => none
  | c :: rest, i =>
    if c = '\n' then
      let k := (rest.takeWhile (fun d => d = '#')).length
      match rest.drop k with
      | [] => if k ≥ 2 then some (i, i + k + 1) else searchHash2 rest (i + 1)
      | d :: _ =>
        if k ≥ 1 ∧ ¬ pyIsSpace d then some (i, i + k + 2)
        else if k ≥ 2 then some (i, i + k + 1)
        else searchHash2 rest (i + 1)
    else searchHash2 rest (i + 1)

/-- One replacement step of the heading pass:
`text[:pos+s] + text[pos+s:pos+e-1] + ' ' + text[pos+e-1:]`. -/
def heading_step (text : Str) (pos s e : Nat) : Str :=
  text.take (pos + s) ++ (text.drop (pos + s)).take (pos + e - 1 - (pos + s)) ++
    [' '] ++ text.drop (pos + e - 1)

/-- Loop of the heading pass (lines 600-606).  The new `pos` is
`r.end() + 1` with `r.end()` relative to the previous `pos` — exactly as
in the source. -/
def heading_loop : Nat → Nat → Str → Option (Nat × Nat) → Except PyErr Str
  | _, _, text, none => .ok text
  | 0, _, _, some _ => .error .outOfFuel
  | fuel + 1, pos, text, some (s, e) =>
    let text := heading_step text pos s e
    let pos := e + 1
    heading_loop fuel pos text (searchHash2 (text.drop pos) 0)

/-- Heading-spacing pass of `import_page`: first search uses
`\n#+[^\s^#]`, subsequent searches use `\n#+[^\s]`. -/
def heading_pass (fuel : Nat) (text : Str) : Except PyErr Str :=
  heading_loop fuel 0 text (searchHash1 text 0)

/-- The content transformer of `import_page` (lines 529-606): the six
rewrite passes applied in order, reading the image directory of the page
and the sqlite mapping tables. -/
def transform (ctx : Ctx) (sq3 : Sq3) (fuel : Nat) (src_page_id : Int) (text : Str) :
    Except PyErr Str :=
  let images :=
    match assocLookup (pyStrInt src_page_id) ctx.fs.images with
    | none => []
    | some entries => entries
  let text := images_pass images src_page_id text
  match docs_pass sq3 fuel 0 text with
  | .error e => .error e
  | .ok text =>
    match files_pass sq3 fuel 0 text with
    | .error e => .error e
    | .ok text =>
      match vimeo_pass fuel 0 text with
      | .error e => .error e
      | .ok text =>
        match links_pass fuel 0 text with
        | .error e => .error e
        | .ok text => heading_pass fuel text

/-- Front part of `Importer.import_page`: read the file (an unreadable
file yields `FILE_READ_ERROR`, an empty one `EMPTY_FILE_ERROR`), parse
it, and run the content transformer over the body. -/
def import_page_body (ctx : Ctx) (sq3 : Sq3) (fuel : Nat) (file_name : Str)
    (src_page_id : Int) : Except PyErr (Sum IResponse (Str × Str × List Tag)) :=
  match assocLookup file_name ctx.fs.docs with
  | none => .ok (.inl ⟨FILE_READ_ERROR, .str []⟩)
  | some none => .ok (.inl ⟨FILE_READ_ERROR, .str []⟩)
  | some (some content) =>
    if content.length = 0 then .ok (.inl ⟨EMPTY_FILE_ERROR, .str []⟩)
    else
      match parse_file content with
      | .error e => .error e
      | .ok (name, text, tags) =>
        match transform ctx sq3 fuel src_page_id text with
        | .error e => .error e
        | .ok text => .ok (.inr (name, text, tags))

/-- `Importer.import_page_text` (lines 401-462): decide between update
(only when the content digest changed), create-under-book and
create-under-chapter; record the mapping of a newly created page. -/
def import_page_text (ctx : Ctx) (st : St) (name text : Str) (tags : Option (List Tag))
    (book_id chapter_id src_page_id page_id : Int)
    (book_slug page_slug : Option Str) : IResponse × St :=
  if page_id ≠ -1 then
    let (changed, sq3) := check_for_new_content ctx.digest st.sq3 book_id page_id text
    let st : St := ⟨sq3, st.wiki⟩
    if changed then
      let ((error, msg), w) := st.wiki.update_page book_id page_id name text tags
      let st : St := ⟨st.sq3, w⟩
      if error ≠ 0 then (⟨error, .str msg⟩, st)
      else (⟨SUCCESS, .int page_id⟩, st)
    else (⟨SUCCESS, .int page_id⟩, st)
  else if book_id ≠ -1 then
    let ((error, msg), w) := st.wiki.create_page name text tags (.inl book_id)
    let st : St := ⟨st.sq3, w⟩
    if error ≠ 0 then (⟨error, .int msg⟩, st)
    else
      let page_id := msg
      let sq3 := remember_page ctx.digest st.sq3 book_id book_slug src_page_id page_id
        page_slug name text
      (⟨SUCCESS, .int page_id⟩, ⟨sq3, st.wiki⟩)
  else
    let ((error, msg), w) := st.wiki.create_page name text tags (.inr chapter_id)
    let st : St := ⟨st.sq3, w⟩
    if error ≠ 0 then (⟨error, .int msg⟩, st)
    else
      let page_id := msg
      let sq3 := remember_page ctx.digest st.sq3 book_id book_slug src_page_id page_id
        page_slug name text
      (⟨SUCCESS, .int page_id⟩, ⟨sq3, st.wiki⟩)

/-- `Importer.import_page` (lines 482-627): parse and transform the
file, default the name to the file stem, derive the page slug, fall back
to catalog tags, and hand over to `import_page_text`. -/
def import_page (ctx : Ctx) (st : St) (fuel : Nat) (file_name : Str)
    (book_id chapter_id src_page_id page_id : Int) (book_slug : Option Str) :
    Except (PyErr × St) (IResponse × St) :=
  match import_page_body ctx st.sq3 fuel file_name src_page_id with
  | .error e => .error (e, st)
  | .ok (.inl resp) => .ok (resp, st)
  | .ok (.inr (name, text, tags)) =>
    let name := if name = [] then pathStem file_name else name
    let page_slug := strReplace [' '] ['-'] (pyLower name)
    let tags := if tags = [] then ctx.mydb.tagsOfPage src_page_id else tags
    .ok (import_page_text ctx st name text (some tags) book_id chapter_id src_page_id
      page_id book_slug (some page_slug))

/-- `Importer.parse_page_title` (lines 465-480): returns the parsed
title on success and an `IResponse` PAIR (not an error return) when the
file cannot be read or is empty. -/
def parse_page_title (ctx : Ctx) (file_name : Str) : Except PyErr (Sum IResponse Str) :=
  match assocLookup file_name ctx.fs.docs with
  | none => .ok (.inl ⟨FILE_READ_ERROR, .str []⟩)
  | some none => .ok (.inl ⟨FILE_READ_ERROR, .str []⟩)
  | some (some content) =>
    if content.length = 0 then .ok (.inl ⟨EMPTY_FILE_ERROR, .str []⟩)
    else
      match parse_file content with
      | .error e => .error e
      | .ok (title, _, _) => .ok (.inr title)

/-- Loop of `Importer.import_doc` over the owning books of a page (the
`while row is not None` of lines 347-397). -/
def import_doc_loop (ctx : Ctx) (fuel : Nat) (file_name : Str) (src_page_id : Int)
    (books : List Int) (first_book_page_id : Option PyData) (st : St) :
    Except (PyErr × St) (IResponse × St) :=
  match books with
  | [] => .ok (⟨SUCCESS, .str []⟩, st)
  | src_book_id :: rest =>
    let bt : Except PyErr (Sum IResponse Str) :=
      if first_page_of_book ctx.mydb src_book_id src_page_id then
        parse_page_title ctx file_name
      else .ok (.inr (pyStrInt src_book_id))
    match bt with
    | .error e => .error (e, st)
    | .ok book_title =>
      match get_or_create_book st src_book_id book_title with
      | .error es => .error es
      | .ok ((bs_book_id, bs_book_slug), st) =>
        let bs_page_id := get_page st.sq3 bs_book_id src_page_id
        match first_book_page_id with
        | none =>
          match import_page ctx st fuel file_name bs_book_id (-1) src_page_id bs_page_id
              (some bs_book_slug) with
          | .error es => .error es
          | .ok (resp, st) =>
            if resp.error ≠ 0 then .ok (⟨resp.error, resp.data⟩, st)
            else
              let msg := resp.data
              let (aresp, st) := import_attachments ctx st (pyStrInt src_page_id) msg
              if aresp.error ≠ 0 then .ok (⟨aresp.error, aresp.data⟩, st)
              else import_doc_loop ctx fuel file_name src_page_id rest (some msg) st
        | some fbpi =>
          let orig0 := pathStem file_name
          let (orig_page_slug, orig_page_title) :=
            match st.sq3.pages.find? (fun r => pyDataEqInt fbpi r.bs_page_id) with
            | some row => (row.bs_page_slug, row.bs_page_title)
            | none => (some orig0, orig0)
          let text := str "\x7b\x7b@" ++ pyStrData fbpi ++ str "\x7d\x7d"
          let (resp, st) := import_page_text ctx st orig_page_title text none bs_book_id
            (-1) src_page_id bs_page_id (some bs_book_slug) orig_page_slug
          if resp.error ≠ 0 then .ok (⟨resp.error, resp.data⟩, st)
          else import_doc_loop ctx fuel file_name src_page_id rest first_book_page_id st

/-- `Importer.import_doc` (lines 327-399): derive the source page id
from the file name and process every owning book of the page. -/
def import_doc (ctx : Ctx) (st : St) (fuel : Nat) (file_name : Str) :
    Except (PyErr × St) (IResponse × St) :=
  match findSub ['-'] file_name with
  | none => .error (.valueError (str "substring not found"), st)
  | some i =>
    match pyInt (file_name.take i) with
    | .error e => .error (e, st)
    | .ok src_page_id =>
      import_doc_loop ctx fuel file_name src_page_id (ctx.mydb.booksOfPage src_page_id)
        none st

/-- Insertion into a Python dict modelled as an association list (later
bindings overwrite earlier ones, order of first insertion kept). -/
def dictInsert (k : Int) (v : Str) : List (Int × Str) → List (Int × Str)
  | [] => [(k, v)]
  | (k2, v2) :: rest => if k2 == k then (k, v) :: rest else (k2, v2) :: dictInsert k v rest

/-- Python dict lookup. -/
def dictLookup (k : Int) : List (Int × Str) → Option Str
  | [] => none
  | (k2, v) :: rest => if k2 == k then some v else dictLookup k rest

/-- Directory scan of `import_books` (lines 302-307): keep `.md` files,
keyed by the integer before the first dash of the file name. -/
def buildPagesDict (entries : List (Str × Option (List Str))) (acc : List (Int × Str)) :
    Except PyErr (List (Int × Str)) :=
  match entries with
  | [] => .ok acc
  | (name, _) :: rest =>
    if pathSuffix name = str ".md" then
      match findSub ['-'] name with
      | none => .error (.valueError (str "substring not found"))
      | some i =>
        match pyInt (name.take i) with
        | .error e => .error e
        | .ok id => buildPagesDict rest (dictInsert id name acc)
    else buildPagesDict rest acc

/-- Loop of `Importer.import_books` over the ordered catalog rows
(lines 314-322): import each page that has a document, aborting on the
first non-zero error. -/
def import_books_loop (ctx : Ctx) (fuel : Nat) (pages : List (Int × Str))
    (rows : List Int) (st : St) : Except (PyErr × St) (IResponse × St) :=
  match rows with
  | [] => .ok (⟨SUCCESS, .str []⟩, st)
  | r :: rest =>
    match dictLookup r pages with
    | none => import_books_loop ctx fuel pages rest st
    | some file_name =>
      match import_doc ctx st fuel file_name with
      | .error es => .error es
      | .ok (resp, st) =>
        if resp.error ≠ 0 then .ok (⟨resp.error, resp.data⟩, st)
        else import_books_loop ctx fuel pages rest st

/-- `Importer.import_books` (lines 290-324): list the documents, query
the ordered catalog and import each document in order. -/
def import_books (ctx : Ctx) (st : St) (fuel : Nat) :
    Except (PyErr × St) (IResponse × St) :=
  match buildPagesDict ctx.fs.docs [] with
  | .error e => .error (e, st)
  | .ok pages => import_books_loop ctx fuel pages ctx.mydb.orderedPages st

/-- C1: the claim states that for every non-empty input whose first line
does not open a front-matter block, `_parse_file` returns the first
`# ` line (stripped) as the title and the lines from the first
subsequent non-heading line on as the body.  In fact on exactly that
path `_parse_front_matter` returns a 2-tuple `(tags, end)` which
`_parse_file` unpacks into four variables, so every such input raises
`ValueError` instead (contradicting the docstring of
`_parse_front_matter`, which documents four return values). -/
theorem C1_parse_file_no_front_matter_raises (c0 : Str) (rest : List Str)
    (h : strStartsWith c0 (str "---") = false) :
    parse_file (c0 :: rest) =
      .error (.valueError (str "not enough values to unpack (expected 4, got 2)")) := by
  simp [parse_file, parse_front_matter, h]

/-- Witness for C1 at the concrete input `['# Foo\n', 'Body\n']`. -/
theorem C1_witness :
    strStartsWith (str "# Foo\n") (str "---") = false ∧
    parse_file [str "# Foo\n", str "Body\n"] =
      .error (.valueError (str "not enough values to unpack (expected 4, got 2)")) :=
  ⟨by decide, C1_parse_file_no_front_matter_raises (str "# Foo\n") [str "Body\n"] (by decide)⟩

/-- C3: the content transformer is not idempotent.  On
`"\n#(https://a)"` (empty mapping store, no image directory) the first
application only runs the heading pass, producing `"\n# (https://a)"`;
that output now contains the ` (https://` marker of the bare-link pass,
so a second application rewrites it again, violating
`transform(transform(x)) = transform(x)`. -/
theorem C3_transform_not_idempotent :
    transform ⟨fun s => s, ⟨[], []⟩, ⟨[], [], []⟩⟩ ⟨[], [], []⟩ 100 1 (str "\n#(https://a)") =
      .ok (str "\n# (https://a)") ∧
    transform ⟨fun s => s, ⟨[], []⟩, ⟨[], [], []⟩⟩ ⟨[], [], []⟩ 100 1 (str "\n# (https://a)") =
      .ok (str "\n# ([https://a](https://a))") ∧
    str "\n# (https://a)" ≠ str "\n# ([https://a](https://a))" :=
  ⟨by decide, by decide, by decide⟩

/-- C4: `check_for_new_content` returns `False` and leaves the store
untouched when the stored digest of the page equals the digest of the
body; returns `True` and rewrites the stored digest when it differs;
returns `True` without writing when no row exists; and a publish is
needed iff the computed digest differs from the stored one or no row
exists yet. -/
theorem C4_check_for_new_content (digest : Str → Str) (sq3 : Sq3) (b p : Int) (body : Str) :
    (∀ row, sq3.pages.find? (fun r => r.bs_book_id == b && r.bs_page_id == p) = some row →
        row.content_md5sum = digest body →
        check_for_new_content digest sq3 b p body = (false, sq3)) ∧
    (∀ row, sq3.pages.find? (fun r => r.bs_book_id == b && r.bs_page_id == p) = some row →
        row.content_md5sum ≠ digest body →
        check_for_new_content digest sq3 b p body =
          (true, ⟨sq3.books,
            sq3.pages.map (fun r =>
              if r.bs_book_id == b && r.bs_page_id == p then
                ⟨r.src_page_id, r.bs_page_id, r.bs_book_id, r.bs_book_slug, r.bs_page_slug,
                  r.bs_page_title, digest body⟩
              else r),
            sq3.attachments⟩)) ∧
    (sq3.pages.find? (fun r => r.bs_book_id == b && r.bs_page_id == p) = none →
        check_for_new_content digest sq3 b p body = (true, sq3)) ∧
    ((check_for_new_content digest sq3 b p body).1 = true ↔
      ∀ row, sq3.pages.find? (fun r => r.bs_book_id == b && r.bs_page_id == p) = some row →
        row.content_md5sum ≠ digest body) := by
  refine ⟨?_, ?_, ?_, ?_⟩
  · intro row hf he
    simp [check_for_new_content, hf, he]
  · intro row hf he
    simp [check_for_new_content, hf, he]
  · intro hf
    simp [check_for_new_content, hf]
  · rcases hf : sq3.pages.find? (fun r => r.bs_book_id == b && r.bs_page_id == p) with _ | row
    · simp [check_for_new_content, hf]
    · by_cases he : row.content_md5sum = digest body
      · have h1 : check_for_new_content digest sq3 b p body = (false, sq3) := by
          simp [check_for_new_content, hf, he]
        rw [h1]
        constructor
        · intro hh
          exact absurd hh (by simp)
        · intro hall
          exact absurd he (hall row hf)
      · have h1 : (check_for_new_content digest sq3 b p body).1 = true := by
          simp [check_for_new_content, hf, he]
        rw [h1]
        constructor
        · intro _ row2 hr2
          rw [hf] at hr2
          injection hr2 with h2
          subst h2
          exact he
        · intro _
          rfl

/-- Witness for C4 at a concrete one-row store. -/
theorem C4_witness :
    (⟨[], [⟨1, 2, 3, none, none, [], str "x"⟩], []⟩ : Sq3).pages.find?
        (fun r => r.bs_book_id == 3 && r.bs_page_id == 2) =
      some ⟨1, 2, 3, none, none, [], str "x"⟩ ∧
    check_for_new_content (fun s => s) ⟨[], [⟨1, 2, 3, none, none, [], str "x"⟩], []⟩ 3 2
        (str "x") =
      (false, ⟨[], [⟨1, 2, 3, none, none, [], str "x"⟩], []⟩) :=
  ⟨by decide,
    (C4_check_for_new_content (fun s => s) ⟨[], [⟨1, 2, 3, none, none, [], str "x"⟩], []⟩ 3 2
        (str "x")).1
      ⟨1, 2, 3, none, none, [], str "x"⟩ (by decide) (by decide)⟩

/-- C7 counterexample: on the document of the claim the parsed body is
the front matter re-prepended with each line indented by four spaces
(the `header` accumulator adds `"    "` to every line), which differs
from the verbatim re-prepending the claim asserts. -/
theorem C7_counterexample :
    parse_file [str "---\n", str "Title: Foo\n", str "tags: [a, b]\n", str "---\n",
        str "# Foo\n", str "Body"] =
      .ok (str "Foo",
        str "---\n    Title: Foo\n    tags: [a, b]\n---\n\n# Foo\nBody",
        [⟨str "a", none⟩, ⟨str "b", none⟩]) ∧
    str "---\n    Title: Foo\n    tags: [a, b]\n---\n\n# Foo\nBody" ≠
      str "---\nTitle: Foo\ntags: [a, b]\n---\n\n# Foo\nBody" :=
  ⟨by decide, by decide⟩

/-- C7 amended: the document `---, Title: Foo, tags: [a, b], ---, # Foo,
Body` parses to title `Foo`, tags `a` and `b`, and a body consisting of
the front-matter lines re-prepended each indented by four spaces, fenced
by `---` lines and a blank line, followed by the remaining text
(`# Foo\nBody`, which contains `Body`). -/
theorem C7_front_matter_round_trip :
    parse_file [str "---\n", str "Title: Foo\n", str "tags: [a, b]\n", str "---\n",
        str "# Foo\n", str "Body"] =
      .ok (str "Foo",
        str "---\n" ++ (str "    " ++ str "Title: Foo\n" ++ str "    " ++ str "tags: [a, b]\n")
          ++ str "---\n\n" ++ str "# Foo\nBody",
        [⟨str "a", none⟩, ⟨str "b", none⟩]) ∧
    containsSub (str "Body")
      (str "---\n    Title: Foo\n    tags: [a, b]\n---\n\n# Foo\nBody") = true :=
  ⟨by decide, by decide⟩

/-- A list is a `isPrefixOf` of itself followed by anything. -/
theorem isPrefixOf_self_append (l r : Str) : l.isPrefixOf (l ++ r) = true := by
  induction l with
  | nil => simp [List.isPrefixOf]
  | cons a t ih => simp [List.isPrefixOf, ih]

/-- A prefix test fails when the first characters differ. -/
theorem isPrefixOf_cons_ne (h : Char) (t : Str) (c : Char) (s : Str) (hne : c ≠ h) :
    (h :: t).isPrefixOf (c :: s) = false := by
  simp [List.isPrefixOf]
  intro he
  exact absurd he.symm hne

/-- Position of a needle placed after a prefix free of its head character. -/
theorem findSub_append (h : Char) (t pre rest : Str) (hpre : ∀ c ∈ pre, c ≠ h) :
    findSub (h :: t) (pre ++ (h :: t) ++ rest) = some pre.length := by
  induction pre with
  | nil =>
    simp only [List.nil_append, List.cons_append, findSub, List.append_eq]
    rw [← List.cons_append, isPrefixOf_self_append (h :: t) rest]
    simp
  | cons c pre' ih =>
    have hc : c ≠ h := hpre c (by simp)
    have hrec := ih (fun d hd => hpre d (by simp [hd]))
    simp only [List.cons_append, findSub, List.append_eq]
    rw [isPrefixOf_cons_ne h t c _ hc]
    simp only [Bool.false_eq_true, if_false]
    rw [hrec]
    simp

/-- No occurrence of a needle in a string free of its head character. -/
theorem findSub_none (h : Char) (t s : Str) (hs : ∀ c ∈ s, c ≠ h) :
    findSub (h :: t) s = none := by
  induction s with
  | nil => rfl
  | cons c s' ih =>
    have hc : c ≠ h := hs c (by simp)
    have hrec := ih (fun d hd => hs d (by simp [hd]))
    simp only [findSub]
    rw [isPrefixOf_cons_ne h t c s' hc]
    simp [hrec]

/-- Replacement is the identity on a string free of the head character of
the pattern (any fuel). -/
theorem strReplaceAux_id (h : Char) (t new s : Str) (fuel : Nat) (hs : ∀ c ∈ s, c ≠ h) :
    strReplaceAux (h :: t) new fuel s = s := by
  induction s generalizing fuel with
  | nil => cases fuel <;> rfl
  | cons c s' ih =>
    have hc : c ≠ h := hs c (by simp)
    cases fuel with
    | zero => rfl
    | succ f =>
      simp only [strReplaceAux]
      rw [isPrefixOf_cons_ne h t c s' hc]
      simp only [ne_eq, Bool.false_eq_true, and_false, if_false]
      rw [ih f (fun d hd => hs d (by simp [hd]))]

/-- Replacement of a single occurrence whose head character occurs
nowhere else outside it. -/
theorem strReplaceAux_single (h : Char) (t new pre post : Str) (fuel : Nat)
    (hf : pre.length + 1 ≤ fuel)
    (hpre : ∀ c ∈ pre, c ≠ h) (hpost : ∀ c ∈ post, c ≠ h) :
    strReplaceAux (h :: t) new fuel (pre ++ (h :: t) ++ post) = pre ++ new ++ post := by
  induction pre generalizing fuel with
  | nil =>
    cases fuel with
    | zero => omega
    | succ f =>
      simp only [List.nil_append, List.cons_append, strReplaceAux, List.append_eq]
      rw [← List.cons_append, isPrefixOf_self_append (h :: t) post]
      simp only [ne_eq, reduceCtorEq, not_false_eq_true, true_and, if_true]
      rw [show List.drop (h :: t).length ((h :: t) ++ post) = post from
        List.drop_left (h :: t) post]
      rw [strReplaceAux_id h t new post f hpost]
  | cons c pre' ih =>
    cases fuel with
    | zero => simp at hf
    | succ f =>
      have hc : c ≠ h := hpre c (by simp)
      simp only [List.cons_append, strReplaceAux, List.append_eq]
      rw [isPrefixOf_cons_ne h t c _ hc]
      simp only [ne_eq, Bool.false_eq_true, and_false, if_false]
      rw [ih f (by simp at hf ⊢; omega) (fun d hd => hpre d (by simp [hd]))]

/-- `strReplace` on a text with one marked occurrence. -/
theorem strReplace_single (h : Char) (t new pre post : Str)
    (hpre : ∀ c ∈ pre, c ≠ h) (hpost : ∀ c ∈ post, c ≠ h) :
    strReplace (h :: t) new (pre ++ (h :: t) ++ post) = pre ++ new ++ post := by
  have hlen : pre.length + 1 ≤ (pre ++ (h :: t) ++ post).length := by
    simp [List.length_append]
  exact strReplaceAux_single h t new pre post _ hlen hpre hpost

/-- The characters emitted by `Nat.digitChar` below base 10 are digits. -/
theorem digitChar_isDigit (m : Nat) (hm : m < 10) : (Nat.digitChar m).isDigit = true := by
  interval_cases m <;> decide

/-- All characters produced by `Nat.toDigitsCore` in base 10 are digits. -/
theorem toDigitsCore_mem_isDigit (fuel : Nat) : ∀ (n : Nat) (ds : List Char),
    (∀ c ∈ ds, c.isDigit = true) →
    ∀ c ∈ Nat.toDigitsCore 10 fuel n ds, c.isDigit = true := by
  induction fuel with
  | zero => intro n ds hds c hc; exact hds c hc
  | succ f ih =>
    intro n ds hds c hc
    simp only [Nat.toDigitsCore] at hc
    by_cases h0 : n / 10 = 0
    · rw [if_pos h0] at hc
      rcases List.mem_cons.mp hc with h | h
      · subst h; exact digitChar_isDigit _ (Nat.mod_lt _ (by norm_num))
      · exact hds c h
    · rw [if_neg h0] at hc
      refine ih (n / 10) _ ?_ c hc
      intro d hd
      rcases List.mem_cons.mp hd with h | h
      · subst h; exact digitChar_isDigit _ (Nat.mod_lt _ (by norm_num))
      · exact hds d h

/-- The decimal rendering of an integer consists of digits and `-`. -/
theorem pyStrInt_mem (i : Int) : ∀ c ∈ pyStrInt i, c.isDigit = true ∨ c = '-' := by
  cases i with
  | ofNat m =>
    intro c hc
    left
    have hq : pyStrInt (Int.ofNat m) = Nat.toDigits 10 m := rfl
    rw [hq] at hc
    exact toDigitsCore_mem_isDigit (m + 1) m [] (by intro d hd; cases hd) c hc
  | negSucc m =>
    intro c hc
    have hq : pyStrInt (Int.negSucc m) = '-' :: Nat.toDigits 10 (m + 1) := rfl
    rw [hq] at hc
    rcases List.mem_cons.mp hc with h | h
    · right; exact h
    · left; exact toDigitsCore_mem_isDigit (m + 2) (m + 1) [] (by intro d hd; cases hd) c h

/-- Helper: characters of a decimal rendering are never brackets or
similar punctuation. -/
theorem pyStrInt_ne (i : Int) (c : Char) (hc : c ∈ pyStrInt i)
    (h1 : c.isDigit = true → False) (h2 : c = '-' → False) : False := by
  rcases pyStrInt_mem i c hc with h | h
  · exact h1 h
  · exact h2 h

/-- Dropping past an appended prefix. -/
theorem drop_append_len (a b : Str) (k : Nat) : (a ++ b).drop (a.length + k) = b.drop k := by
  induction a with
  | nil => simp
  | cons c a' ih =>
    simp only [List.cons_append, List.length_cons]
    rw [show a'.length + 1 + k = a'.length + k + 1 from by omega, List.drop_succ_cons]
    exact ih

/-- C10: the attachment-link pass resolves a link `(../files/{seg}/{fname})`
by querying the attachments table on the file name alone: whichever page
the link names in its path segment, the rewrite uses the
`bs_att_id` of the FIRST table row whose filename matches (`hrow` only
constrains the filename; `seg` and the pages recorded in the table are
arbitrary).  Stated for a text with one such link and side conditions
keeping the surrounding text free of markers. -/
theorem C10_files_pass (sq3 : Sq3) (pre seg fname post : Str) (row : AttRow) (fuel : Nat)
    (hrow : sq3.attachments.find? (fun r => r.filename == fname) = some row)
    (hpre : ∀ c ∈ pre, c ≠ '(')
    (hpost : ∀ c ∈ post, c ≠ '(')
    (hseg : ∀ c ∈ seg, c ≠ ')' ∧ c ≠ '/' ∧ c ≠ '(')
    (hfname : ∀ c ∈ fname, c ≠ ')' ∧ c ≠ '(') :
    files_pass sq3 (fuel + 2) 0
        (pre ++ str "(../files/" ++ seg ++ ['/'] ++ fname ++ [')'] ++ post) =
      .ok (pre ++ str "(/attachments/" ++ pyStrInt row.bs_att_id ++ [')'] ++ post) := by
  have hmarker : str "(../files/" = '(' :: str "../files/" := rfl
  have h1 : findSub (str "(../files/")
      (pre ++ str "(../files/" ++ seg ++ ['/'] ++ fname ++ [')'] ++ post) = some pre.length := by
    have h := findSub_append '(' (str "../files/") pre
      (seg ++ (['/'] ++ (fname ++ ([')'] ++ post)))) hpre
    rw [← hmarker] at h
    rw [show pre ++ str "(../files/" ++ seg ++ ['/'] ++ fname ++ [')'] ++ post
        = pre ++ str "(../files/" ++ (seg ++ (['/'] ++ (fname ++ ([')'] ++ post)))) from by
      simp [List.append_assoc]]
    exact h
  have hdrop : List.drop (0 + List.length pre + List.length (str "(../files/"))
      (pre ++ str "(../files/" ++ seg ++ ['/'] ++ fname ++ [')'] ++ post)
      = seg ++ ['/'] ++ fname ++ [')'] ++ post := by
    rw [show pre ++ str "(../files/" ++ seg ++ ['/'] ++ fname ++ [')'] ++ post
        = pre ++ (str "(../files/" ++ (seg ++ (['/'] ++ (fname ++ ([')'] ++ post))))) from by
      simp [List.append_assoc]]
    rw [show 0 + List.length pre + List.length (str "(../files/") = List.length pre + 10 from by
      rw [show List.length (str "(../files/") = 10 from rfl]; omega]
    rw [drop_append_len]
    rw [show (10 : Nat) = List.length (str "(../files/") from rfl]
    rw [List.drop_left]
    simp [List.append_assoc]
  have hfind2 : findSub [')'] (seg ++ ['/'] ++ fname ++ [')'] ++ post)
      = some (List.length (seg ++ ['/'] ++ fname)) := by
    refine findSub_append ')' [] (seg ++ ['/'] ++ fname) post ?_
    intro c hc
    simp only [List.mem_append, List.mem_singleton] at hc
    rcases hc with (hc | hc) | hc
    · exact (hseg c hc).1
    · subst hc; decide
    · exact (hfname c hc).1
  have htake : List.take (List.length (seg ++ ['/'] ++ fname))
      (seg ++ ['/'] ++ fname ++ [')'] ++ post) = seg ++ ['/'] ++ fname := by
    rw [List.append_assoc (seg ++ ['/'] ++ fname) [')'] post]
    exact List.take_left (seg ++ ['/'] ++ fname) ([')'] ++ post)
  have hfind3 : findSub ['/'] (seg ++ ['/'] ++ fname) = some (List.length seg) := by
    refine findSub_append '/' [] seg fname ?_
    intro c hc
    exact (hseg c hc).2.1
  have hdropfn : List.drop (List.length seg + 1) (seg ++ ['/'] ++ fname) = fname := by
    rw [show List.length seg + 1 = List.length (seg ++ ['/']) from by simp]
    exact List.drop_left (seg ++ ['/']) fname
  have hrepl : strReplace (str "(../files/" ++ (seg ++ ['/'] ++ fname) ++ [')'])
      (str "(/attachments/" ++ pyStrInt row.bs_att_id ++ [')'])
      (pre ++ str "(../files/" ++ seg ++ ['/'] ++ fname ++ [')'] ++ post) =
      pre ++ str "(/attachments/" ++ pyStrInt row.bs_att_id ++ [')'] ++ post := by
    have h := strReplace_single '(' (str "../files/" ++ (seg ++ (['/'] ++ (fname ++ [')']))))
        (str "(/attachments/" ++ pyStrInt row.bs_att_id ++ [')']) pre post hpre hpost
    rw [show ('(' : Char) :: (str "../files/" ++ (seg ++ (['/'] ++ (fname ++ [')']))))
        = str "(../files/" ++ (seg ++ ['/'] ++ fname) ++ [')'] from by
      rw [hmarker]; simp [List.append_assoc]] at h
    rw [show pre ++ (str "(../files/" ++ (seg ++ ['/'] ++ fname) ++ [')']) ++ post
        = pre ++ str "(../files/" ++ seg ++ ['/'] ++ fname ++ [')'] ++ post from by
      simp [List.append_assoc]] at h
    rw [show pre ++ (str "(/attachments/" ++ pyStrInt row.bs_att_id ++ [')']) ++ post
        = pre ++ str "(/attachments/" ++ pyStrInt row.bs_att_id ++ [')'] ++ post from by
      simp [List.append_assoc]] at h
    exact h
  have hfinal : files_pass sq3 (fuel + 1)
      (0 + List.length pre + List.length (str "(../files/"))
      (pre ++ str "(/attachments/" ++ pyStrInt row.bs_att_id ++ [')'] ++ post) =
      .ok (pre ++ str "(/attachments/" ++ pyStrInt row.bs_att_id ++ [')'] ++ post) := by
    have hsplit : (str "(/attachments/" : Str) = str "(/attachme" ++ str "nts/" := by decide
    have hdru : List.drop (0 + List.length pre + List.length (str "(../files/"))
        (pre ++ str "(/attachments/" ++ pyStrInt row.bs_att_id ++ [')'] ++ post) =
        str "nts/" ++ (pyStrInt row.bs_att_id ++ ([')'] ++ post)) := by
      rw [show pre ++ str "(/attachments/" ++ pyStrInt row.bs_att_id ++ [')'] ++ post
          = pre ++ (str "(/attachme" ++ (str "nts/" ++ (pyStrInt row.bs_att_id ++ ([')'] ++ post)))) from by
        rw [hsplit]; simp [List.append_assoc]]
      rw [show 0 + List.length pre + List.length (str "(../files/") = List.length pre + 10 from by
        rw [show List.length (str "(../files/") = 10 from rfl]; omega]
      rw [drop_append_len]
      rw [show (10 : Nat) = List.length (str "(/attachme" : Str) from rfl]
      rw [List.drop_left]
    have hnone : findSub (str "(../files/")
        (str "nts/" ++ (pyStrInt row.bs_att_id ++ ([')'] ++ post))) = none := by
      rw [hmarker]
      refine findSub_none '(' _ _ ?_
      intro c hc
      simp only [List.mem_append, List.mem_singleton] at hc
      rcases hc with hc | hc | hc | hc
      · have hn : ∀ d ∈ (str "nts/" : Str), d ≠ '(' := by decide
        exact hn c hc
      · intro heq
        subst heq
        exact pyStrInt_ne row.bs_att_id '(' hc (by decide) (by decide)
      · subst hc; decide
      · exact hpost c hc
    rw [files_pass, hdru, hnone]
  rw [files_pass, List.drop_zero]
  split
  next heq => rw [h1] at heq; cases heq
  next idx heq =>
    rw [h1] at heq
    injection heq with heq
    subst heq
    simp only [hdrop]
    split
    next heq2 => rw [hfind2] at heq2; cases heq2
    next j heq2 =>
      rw [hfind2] at heq2
      injection heq2 with heq2
      subst heq2
      simp only [htake]
      split
      next heq3 => rw [hfind3] at heq3; cases heq3
      next k heq3 =>
        rw [hfind3] at heq3
        injection heq3 with heq3
        subst heq3
        simp only [hdropfn]
        split
        next row2 heq4 =>
          rw [hrow] at heq4
          injection heq4 with heq4
          subst heq4
          rw [hrepl]
          exact hfinal
        next heq4 => rw [hrow] at heq4; cases heq4

/-- Witness for C10: the table records `doc.pdf` for pages 7 and 8 (ids
21 and 22); a link whose path segment names page 8 still rewrites to
attachment 21, the id of the first matching row. -/
theorem C10_witness :
    (⟨[], [], [⟨str "doc.pdf", .int 7, 21⟩, ⟨str "doc.pdf", .int 8, 22⟩]⟩ : Sq3).attachments.find?
        (fun r => r.filename == str "doc.pdf") = some ⟨str "doc.pdf", .int 7, 21⟩ ∧
    files_pass ⟨[], [], [⟨str "doc.pdf", .int 7, 21⟩, ⟨str "doc.pdf", .int 8, 22⟩]⟩ 2 0
        (str "see " ++ str "(../files/" ++ str "8" ++ ['/'] ++ str "doc.pdf" ++ [')'] ++ str "!") =
      .ok (str "see " ++ str "(/attachments/" ++ pyStrInt (21 : Int) ++ [')'] ++ str "!") :=
  ⟨by decide,
    C10_files_pass _ (str "see ") (str "8") (str "doc.pdf") (str "!")
      ⟨str "doc.pdf", .int 7, 21⟩ 0 (by decide) (by decide) (by decide) (by decide) (by decide)⟩

/-- Behavior lemmas for the store and page operations, shared by the
claim theorems below. -/
theorem get_or_create_book_found (st : St) (b : Int) (t : Sum IResponse Str) (row : BookRow)
    (h : st.sq3.books.find? (fun r => r.src_id == b) = some row) :
    get_or_create_book st b t = .ok ((row.bs_id, row.bs_slug), st) := by
  unfold get_or_create_book
  rw [h]

theorem get_or_create_book_create_str (st : St) (b : Int) (t : Str)
    (h : st.sq3.books.find? (fun r => r.src_id == b) = none) :
    get_or_create_book st b (.inr t) =
      .ok ((st.wiki.nextId, strReplace [' '] ['-'] (pyLower t)),
        ⟨⟨st.sq3.books ++ [⟨b, st.wiki.nextId, strReplace [' '] ['-'] (pyLower t)⟩],
          st.sq3.pages, st.sq3.attachments⟩,
          ⟨st.wiki.nextId + 1, st.wiki.log ++ [.createBook (.inr t)]⟩⟩) := by
  unfold get_or_create_book create_book Wiki.create_book
  rw [h]
  rfl

theorem get_or_create_book_create_resp (st : St) (b : Int) (resp : IResponse)
    (h : st.sq3.books.find? (fun r => r.src_id == b) = none) :
    get_or_create_book st b (.inl resp) =
      .error (.attributeError (str "IResponse has no attribute lower"),
        ⟨st.sq3, ⟨st.wiki.nextId + 1, st.wiki.log ++ [.createBook (.inl resp)]⟩⟩) := by
  unfold get_or_create_book create_book Wiki.create_book
  rw [h]
  rfl

theorem get_page_found (sq3 : Sq3) (b p : Int) (row : PageRow)
    (h : sq3.pages.find? (fun r => r.src_page_id == p && r.bs_book_id == b) = some row) :
    get_page sq3 b p = row.bs_page_id := by
  unfold get_page
  rw [h]

theorem get_page_none (sq3 : Sq3) (b p : Int)
    (h : sq3.pages.find? (fun r => r.src_page_id == p && r.bs_book_id == b) = none) :
    get_page sq3 b p = -1 := by
  unfold get_page
  rw [h]

theorem import_page_text_unchanged (ctx : Ctx) (st : St) (name text : Str)
    (tags : Option (List Tag)) (book_id chapter_id src_page_id page_id : Int)
    (bslug pslug : Option Str) (row : PageRow)
    (hpid : page_id ≠ -1)
    (hrow : st.sq3.pages.find? (fun r => r.bs_book_id == book_id && r.bs_page_id == page_id)
      = some row)
    (hdig : row.content_md5sum = ctx.digest text) :
    import_page_text ctx st name text tags book_id chapter_id src_page_id page_id bslug pslug =
      (⟨SUCCESS, .int page_id⟩, st) := by
  unfold import_page_text check_for_new_content
  rw [if_pos hpid, hrow]
  simp [hdig]

theorem import_page_text_changed (ctx : Ctx) (st : St) (name text : Str)
    (tags : Option (List Tag)) (book_id chapter_id src_page_id page_id : Int)
    (bslug pslug : Option Str) (row : PageRow)
    (hpid : page_id ≠ -1)
    (hrow : st.sq3.pages.find? (fun r => r.bs_book_id == book_id && r.bs_page_id == page_id)
      = some row)
    (hdig : ¬ row.content_md5sum = ctx.digest text) :
    import_page_text ctx st name text tags book_id chapter_id src_page_id page_id bslug pslug =
      (⟨SUCCESS, .int page_id⟩,
        ⟨⟨st.sq3.books,
          st.sq3.pages.map (fun r =>
            if r.bs_book_id == book_id && r.bs_page_id == page_id then
              ⟨r.src_page_id, r.bs_page_id, r.bs_book_id, r.bs_book_slug, r.bs_page_slug,
                r.bs_page_title, ctx.digest text⟩
            else r),
          st.sq3.attachments⟩,
          ⟨st.wiki.nextId,
            st.wiki.log ++ [.updatePage book_id page_id name text tags]⟩⟩) := by
  unfold import_page_text check_for_new_content Wiki.update_page
  rw [if_pos hpid, hrow]
  simp [hdig, SUCCESS]

theorem import_page_text_create (ctx : Ctx) (st : St) (name text : Str)
    (tags : Option (List Tag)) (book_id chapter_id src_page_id : Int)
    (bslug pslug : Option Str)
    (hbid : book_id ≠ -1) :
    import_page_text ctx st name text tags book_id chapter_id src_page_id (-1) bslug pslug =
      (⟨SUCCESS, .int st.wiki.nextId⟩,
        ⟨⟨st.sq3.books,
          st.sq3.pages ++ [⟨src_page_id, st.wiki.nextId, book_id, bslug, pslug, name,
            ctx.digest text⟩],
          st.sq3.attachments⟩,
          ⟨st.wiki.nextId + 1,
            st.wiki.log ++ [.createPage name text tags (.inl book_id)]⟩⟩) := by
  unfold import_page_text Wiki.create_page remember_page
  rw [if_neg (by simp), if_pos hbid]
  rfl

theorem import_page_ok (ctx : Ctx) (st : St) (fuel : Nat) (file_name : Str)
    (book_id chapter_id src_page_id page_id : Int) (bslug : Option Str)
    (n t : Str) (tg : List Tag)
    (hbody : import_page_body ctx st.sq3 fuel file_name src_page_id = .ok (.inr (n, t, tg)))
    (hn : n ≠ []) (htg : tg ≠ []) :
    import_page ctx st fuel file_name book_id chapter_id src_page_id page_id bslug =
      .ok (import_page_text ctx st n t (some tg) book_id chapter_id src_page_id page_id bslug
        (some (strReplace [' '] ['-'] (pyLower n)))) := by
  unfold import_page
  rw [hbody]
  simp [hn, htg]

theorem import_attachments_nodir (ctx : Ctx) (st : St) (dirname : Str) (pid : PyData)
    (h : assocLookup dirname ctx.fs.files = none) :
    import_attachments ctx st dirname pid = (⟨SUCCESS, .str []⟩, st) := by
  unfold import_attachments
  rw [h]

theorem import_attachments_loop_all_found (st : St) (entries : List FSFile) (pid : PyData)
    (h : ∀ f ∈ entries, (st.sq3.attachments.find?
      (fun r => r.filename == f.name && decide (r.bs_page_id = pid))).isSome = true) :
    import_attachments_loop st entries pid = (⟨SUCCESS, .str []⟩, st) := by
  induction entries with
  | nil => rfl
  | cons f rest ih =>
    have hf := h f (by simp)
    unfold import_attachments_loop
    rcases hrow : st.sq3.attachments.find?
        (fun r => r.filename == f.name && decide (r.bs_page_id = pid)) with _ | row
    · rw [hrow] at hf; cases hf
    · rw [hrow]
      exact ih (fun g hg => h g (by simp [hg]))

theorem import_attachments_all_found (ctx : Ctx) (st : St) (dirname : Str) (pid : PyData)
    (entries : List FSFile)
    (hdir : assocLookup dirname ctx.fs.files = some entries)
    (h : ∀ f ∈ entries, (st.sq3.attachments.find?
      (fun r => r.filename == f.name && decide (r.bs_page_id = pid))).isSome = true) :
    import_attachments ctx st dirname pid = (⟨SUCCESS, .str []⟩, st) := by
  unfold import_attachments
  rw [hdir]
  exact import_attachments_loop_all_found st entries pid h

theorem import_doc_eq_loop (ctx : Ctx) (st : St) (fuel : Nat) (file_name : Str)
    (i : Nat) (src_page_id : Int)
    (hfind : findSub ['-'] file_name = some i)
    (hint : pyInt (file_name.take i) = .ok src_page_id) :
    import_doc ctx st fuel file_name =
      import_doc_loop ctx fuel file_name src_page_id (ctx.mydb.booksOfPage src_page_id)
        none st := by
  unfold import_doc
  split
  next heq => rw [hfind] at heq; cases heq
  next j heq =>
    rw [hfind] at heq
    injection heq with heq
    subst heq
    split
    next e heq2 => rw [hint] at heq2; cases heq2
    next v heq2 =>
      rw [hint] at heq2
      injection heq2 with heq2
      subst heq2
      rfl

/-- C9: when the source file cannot be read (unlisted or unreadable) or
has zero lines, `parse_page_title` returns the `IResponse` error pair
(`FILE_READ_ERROR` or `EMPTY_FILE_ERROR`) instead of a title, and
`import_doc` uses that value directly as the book title: the create-book
call receives the `IResponse` pair as the name and the error is never
returned as an `IResponse` by `import_doc` (on the create path the slug
computation then crashes with `AttributeError`). -/
theorem C9_title_parse_errors_swallowed (ctx : Ctx) (file_name : Str) :
    (assocLookup file_name ctx.fs.docs = none →
      parse_page_title ctx file_name = .ok (.inl ⟨FILE_READ_ERROR, .str []⟩)) ∧
    (assocLookup file_name ctx.fs.docs = some none →
      parse_page_title ctx file_name = .ok (.inl ⟨FILE_READ_ERROR, .str []⟩)) ∧
    (∀ content, assocLookup file_name ctx.fs.docs = some (some content) →
      content.length = 0 →
      parse_page_title ctx file_name = .ok (.inl ⟨EMPTY_FILE_ERROR, .str []⟩)) ∧
    (∀ (st : St) (fuel i : Nat) (src_page_id b : Int) (resp : IResponse),
      findSub ['-'] file_name = some i →
      pyInt (file_name.take i) = .ok src_page_id →
      ctx.mydb.booksOfPage src_page_id = [b] →
      first_page_of_book ctx.mydb b src_page_id = true →
      parse_page_title ctx file_name = .ok (.inl resp) →
      st.sq3.books.find? (fun r => r.src_id == b) = none →
      import_doc ctx st fuel file_name =
        .error (.attributeError (str "IResponse has no attribute lower"),
          ⟨st.sq3, ⟨st.wiki.nextId + 1, st.wiki.log ++ [.createBook (.inl resp)]⟩⟩)) := by
  refine ⟨?_, ?_, ?_, ?_⟩
  · intro h
    unfold parse_page_title
    rw [h]
  · intro h
    unfold parse_page_title
    rw [h]
  · intro content h hlen
    unfold parse_page_title
    rw [h]
    simp [hlen]
  · intro st fuel i src_page_id b resp hfind hint hbooks hfirst hparse hnorow
    rw [import_doc_eq_loop ctx st fuel file_name i src_page_id hfind hint, hbooks]
    unfold import_doc_loop
    rw [if_pos hfirst, hparse]
    simp only [get_or_create_book_create_resp st b resp hnorow]


/-- Witness for C9: an empty file `7-a.md`, page 7 owned by book 3 and
first in it; the book-create call receives the swallowed
`EMPTY_FILE_ERROR` response as its title. -/
theorem C9_witness :
    parse_page_title ⟨fun s => s, ⟨[⟨3, 7, 1⟩], []⟩, ⟨[(str "7-a.md", some [])], [], []⟩⟩
        (str "7-a.md") = .ok (.inl ⟨EMPTY_FILE_ERROR, .str []⟩) ∧
    import_doc ⟨fun s => s, ⟨[⟨3, 7, 1⟩], []⟩, ⟨[(str "7-a.md", some [])], [], []⟩⟩
        ⟨⟨[], [], []⟩, ⟨1, []⟩⟩ 5 (str "7-a.md") =
      .error (.attributeError (str "IResponse has no attribute lower"),
        ⟨⟨[], [], []⟩, ⟨2, [.createBook (.inl ⟨EMPTY_FILE_ERROR, .str []⟩)]⟩⟩) :=
  ⟨(C9_title_parse_errors_swallowed _ _).2.2.1 [] (by decide) (by decide),
    (C9_title_parse_errors_swallowed _ _).2.2.2 ⟨⟨[], [], []⟩, ⟨1, []⟩⟩ 5 1 7 3
      ⟨EMPTY_FILE_ERROR, .str []⟩ (by decide) (by decide) (by decide) (by decide)
      ((C9_title_parse_errors_swallowed _ _).2.2.1 [] (by decide) (by decide)) (by decide)⟩

/-- Processing an empty owning-book list ends the `import_doc` loop. -/
theorem import_doc_loop_nil (ctx : Ctx) (fuel : Nat) (fn : Str) (sp : Int)
    (first : Option PyData) (st : St) :
    import_doc_loop ctx fuel fn sp [] first st = .ok (⟨SUCCESS, .str []⟩, st) := rfl

/-- C6: when `import_doc` creates the destination book for the single
owning book `b` of a page, the title handed to the wiki create-book call
is the parsed page title exactly when the page is the first page of `b`
in display order, and the string form of the legacy book id otherwise;
the slug persisted in the book mapping is that title lower-cased with
spaces replaced by hyphens.  The conclusion exhibits the whole resulting
state, with the title `if first_page_of_book ... then t0 else pyStrInt b`
and its slug in both the `books` row and the wiki log. -/
theorem C6_created_book_title_and_slug (ctx : Ctx) (st : St) (fuel : Nat)
    (file_name t0 n0 t1 : Str) (tg1 : List Tag) (i : Nat) (src_page_id b : Int)
    (hfind : findSub ['-'] file_name = some i)
    (hint : pyInt (file_name.take i) = .ok src_page_id)
    (hbooks : ctx.mydb.booksOfPage src_page_id = [b])
    (hparse : parse_page_title ctx file_name = .ok (.inr t0))
    (hnorow : st.sq3.books.find? (fun r => r.src_id == b) = none)
    (hN : st.wiki.nextId ≠ -1)
    (hbody : import_page_body ctx
      ⟨st.sq3.books ++ [⟨b, st.wiki.nextId, strReplace [' '] ['-'] (pyLower
          (if first_page_of_book ctx.mydb b src_page_id then t0 else pyStrInt b))⟩],
        st.sq3.pages, st.sq3.attachments⟩ fuel file_name src_page_id
      = .ok (.inr (n0, t1, tg1)))
    (hn : n0 ≠ []) (htg : tg1 ≠ [])
    (hfresh : st.sq3.pages.find?
      (fun r => r.src_page_id == src_page_id && r.bs_book_id == st.wiki.nextId) = none)
    (hnofiles : assocLookup (pyStrInt src_page_id) ctx.fs.files = none) :
    import_doc ctx st fuel file_name =
      .ok (⟨SUCCESS, .str []⟩,
        ⟨⟨st.sq3.books ++ [⟨b, st.wiki.nextId, strReplace [' '] ['-'] (pyLower
            (if first_page_of_book ctx.mydb b src_page_id then t0 else pyStrInt b))⟩],
          st.sq3.pages ++ [⟨src_page_id, st.wiki.nextId + 1, st.wiki.nextId,
            some (strReplace [' '] ['-'] (pyLower
              (if first_page_of_book ctx.mydb b src_page_id then t0 else pyStrInt b))),
            some (strReplace [' '] ['-'] (pyLower n0)), n0, ctx.digest t1⟩],
          st.sq3.attachments⟩,
          ⟨st.wiki.nextId + 1 + 1,
            st.wiki.log ++ [.createBook (.inr
              (if first_page_of_book ctx.mydb b src_page_id then t0 else pyStrInt b))]
              ++ [.createPage n0 t1 (some tg1) (.inl st.wiki.nextId)]⟩⟩) := by
  have hbt : (if first_page_of_book ctx.mydb b src_page_id then parse_page_title ctx file_name
      else .ok (.inr (pyStrInt b)))
      = .ok (.inr (if first_page_of_book ctx.mydb b src_page_id then t0 else pyStrInt b)) := by
    cases hfp : first_page_of_book ctx.mydb b src_page_id
    · simp [hfp]
    · simp [hfp, hparse]
  rw [import_doc_eq_loop ctx st fuel file_name i src_page_id hfind hint, hbooks]
  unfold import_doc_loop
  rw [hbt]
  simp only [get_or_create_book_create_str st b
    (if first_page_of_book ctx.mydb b src_page_id then t0 else pyStrInt b) hnorow]
  simp only [get_page_none
    ⟨st.sq3.books ++ [⟨b, st.wiki.nextId, strReplace [' '] ['-'] (pyLower
        (if first_page_of_book ctx.mydb b src_page_id then t0 else pyStrInt b))⟩],
      st.sq3.pages, st.sq3.attachments⟩ st.wiki.nextId src_page_id hfresh]
  simp only [import_page_ok ctx
    ⟨⟨st.sq3.books ++ [⟨b, st.wiki.nextId, strReplace [' '] ['-'] (pyLower
        (if first_page_of_book ctx.mydb b src_page_id then t0 else pyStrInt b))⟩],
      st.sq3.pages, st.sq3.attachments⟩,
      ⟨st.wiki.nextId + 1, st.wiki.log ++ [.createBook (.inr
        (if first_page_of_book ctx.mydb b src_page_id then t0 else pyStrInt b))]⟩⟩
    fuel file_name st.wiki.nextId (-1) src_page_id (-1)
    (some (strReplace [' '] ['-'] (pyLower
      (if first_page_of_book ctx.mydb b src_page_id then t0 else pyStrInt b))))
    n0 t1 tg1 hbody hn htg]
  simp only [import_page_text_create ctx
    ⟨⟨st.sq3.books ++ [⟨b, st.wiki.nextId, strReplace [' '] ['-'] (pyLower
        (if first_page_of_book ctx.mydb b src_page_id then t0 else pyStrInt b))⟩],
      st.sq3.pages, st.sq3.attachments⟩,
      ⟨st.wiki.nextId + 1, st.wiki.log ++ [.createBook (.inr
        (if first_page_of_book ctx.mydb b src_page_id then t0 else pyStrInt b))]⟩⟩
    n0 t1 (some tg1) st.wiki.nextId (-1) src_page_id
    (some (strReplace [' '] ['-'] (pyLower
      (if first_page_of_book ctx.mydb b src_page_id then t0 else pyStrInt b))))
    (some (strReplace [' '] ['-'] (pyLower n0))) hN]
  simp only [SUCCESS, ne_eq, not_true_eq_false, if_false,
    import_attachments_nodir ctx
      ⟨⟨st.sq3.books ++ [⟨b, st.wiki.nextId, strReplace [' '] ['-'] (pyLower
          (if first_page_of_book ctx.mydb b src_page_id then t0 else pyStrInt b))⟩],
        st.sq3.pages ++ [⟨src_page_id, st.wiki.nextId + 1, st.wiki.nextId,
          some (strReplace [' '] ['-'] (pyLower
            (if first_page_of_book ctx.mydb b src_page_id then t0 else pyStrInt b))),
          some (strReplace [' '] ['-'] (pyLower n0)), n0, ctx.digest t1⟩],
        st.sq3.attachments⟩,
        ⟨st.wiki.nextId + 1 + 1,
          st.wiki.log ++ [.createBook (.inr
            (if first_page_of_book ctx.mydb b src_page_id then t0 else pyStrInt b))]
            ++ [.createPage n0 t1 (some tg1) (.inl st.wiki.nextId)]⟩⟩
      (pyStrInt src_page_id) (.int (st.wiki.nextId + 1)) hnofiles,
    import_doc_loop_nil]


/-- Witness for C6: the same file imported as first page of its book
(title `My Book`, slug `my-book`) and as a non-first page (title and
slug `5`, the legacy book id). -/
theorem C6_witness :
    import_doc ⟨fun s => s, ⟨[⟨5, 7, 1⟩], []⟩,
        ⟨[(str "7-p.md", some [str "---\n", str "Title: My Book\n", str "tags: [x]\n",
          str "---\n", str "hello\n"])], [], []⟩⟩
      ⟨⟨[], [], []⟩, ⟨1, []⟩⟩ 20 (str "7-p.md") =
      .ok (⟨SUCCESS, .str []⟩,
        ⟨⟨[⟨5, 1, str "my-book"⟩],
          [⟨7, 2, 1, some (str "my-book"), some (str "my-book"), str "My Book", (str "---\n    Title: My Book\n    tags: [x]\n---\n\nhello\n")⟩],
          []⟩,
          ⟨3, [.createBook (.inr (str "My Book")),
            .createPage (str "My Book") (str "---\n    Title: My Book\n    tags: [x]\n---\n\nhello\n") (some [⟨str "x", none⟩]) (.inl 1)]⟩⟩) ∧
    import_doc ⟨fun s => s, ⟨[⟨5, 6, 1⟩, ⟨5, 7, 2⟩], []⟩,
        ⟨[(str "7-p.md", some [str "---\n", str "Title: My Book\n", str "tags: [x]\n",
          str "---\n", str "hello\n"])], [], []⟩⟩
      ⟨⟨[], [], []⟩, ⟨1, []⟩⟩ 20 (str "7-p.md") =
      .ok (⟨SUCCESS, .str []⟩,
        ⟨⟨[⟨5, 1, str "5"⟩],
          [⟨7, 2, 1, some (str "5"), some (str "my-book"), str "My Book", (str "---\n    Title: My Book\n    tags: [x]\n---\n\nhello\n")⟩],
          []⟩,
          ⟨3, [.createBook (.inr (str "5")),
            .createPage (str "My Book") (str "---\n    Title: My Book\n    tags: [x]\n---\n\nhello\n") (some [⟨str "x", none⟩]) (.inl 1)]⟩⟩) :=
  ⟨C6_created_book_title_and_slug _ _ 20 (str "7-p.md") (str "My Book") (str "My Book")
      (str "---\n    Title: My Book\n    tags: [x]\n---\n\nhello\n") [⟨str "x", none⟩] 1 7 5 (by decide) (by decide) (by decide) (by decide)
      (by decide) (by decide) (by decide) (by decide) (by decide) (by decide) (by decide),
    C6_created_book_title_and_slug _ _ 20 (str "7-p.md") (str "My Book") (str "My Book")
      (str "---\n    Title: My Book\n    tags: [x]\n---\n\nhello\n") [⟨str "x", none⟩] 1 7 5 (by decide) (by decide) (by decide) (by decide)
      (by decide) (by decide) (by decide) (by decide) (by decide) (by decide) (by decide)⟩

/-- Unfolding equation of the catalog loop of `import_books`. -/
theorem import_books_loop_cons (ctx : Ctx) (fuel : Nat) (pages : List (Int × Str))
    (r : Int) (rest : List Int) (st : St) :
    import_books_loop ctx fuel pages (r :: rest) st =
      match dictLookup r pages with
      | none => import_books_loop ctx fuel pages rest st
      | some file_name =>
        match import_doc ctx st fuel file_name with
        | .error es => .error es
        | .ok (resp, st) =>
          if resp.error ≠ 0 then .ok (⟨resp.error, resp.data⟩, st)
          else import_books_loop ctx fuel pages rest st := rfl

/-- Processing a prefix of catalog rows that all succeed advances the
loop to the state the prefix produced. -/
theorem import_books_loop_front (ctx : Ctx) (fuel : Nat) (pages : List (Int × Str)) :
    ∀ (pre rest : List Int) (st st1 : St),
    import_books_loop ctx fuel pages pre st = .ok (⟨SUCCESS, .str []⟩, st1) →
    import_books_loop ctx fuel pages (pre ++ rest) st =
      import_books_loop ctx fuel pages rest st1 := by
  intro pre
  induction pre with
  | nil =>
    intro rest st st1 h
    unfold import_books_loop at h
    injection h with h
    rw [List.nil_append]
    rw [show st = st1 from congrArg Prod.snd h]
  | cons r' pre' ih =>
    intro rest st st1 h
    rw [List.cons_append, import_books_loop_cons]
    rw [import_books_loop_cons] at h
    rcases hl : dictLookup r' pages with _ | fn
    · simp only [hl] at h
      exact ih rest st st1 h
    · rcases hd : import_doc ctx st fuel fn with es | pr
      · simp [hl, hd] at h
      · rcases pr with ⟨resp, st2⟩
        simp only [hl, hd] at h
        simp only [hd]
        by_cases he : resp.error = 0
        · simp [he] at h ⊢
          exact ih rest st2 st1 h
        · simp [he] at h
          exact absurd (by simpa [SUCCESS] using h.1.1) he

/-- C8: when importing the document of catalog row `r` returns a
non-zero error, `import_books` returns exactly that error with the state
at the failure, for ANY list `post` of later catalog rows: the rows after
the failing one are never processed. -/
theorem C8_import_books_stops_at_first_error (ctx : Ctx) (st st1 st2 : St) (fuel : Nat)
    (pages : List (Int × Str)) (pre post : List Int) (r : Int) (fn : Str)
    (resp : IResponse)
    (hpages : buildPagesDict ctx.fs.docs [] = .ok pages)
    (hrows : ctx.mydb.orderedPages = pre ++ r :: post)
    (hpre : import_books_loop ctx fuel pages pre st = .ok (⟨SUCCESS, .str []⟩, st1))
    (hlook : dictLookup r pages = some fn)
    (hdoc : import_doc ctx st1 fuel fn = .ok (resp, st2))
    (herr : resp.error ≠ 0) :
    import_books ctx st fuel = .ok (⟨resp.error, resp.data⟩, st2) := by
  unfold import_books
  rw [hpages]
  simp only [hrows]
  rw [import_books_loop_front ctx fuel pages pre (r :: post) st st1 hpre]
  unfold import_books_loop
  rw [hlook]
  simp only [hdoc, ne_eq, herr, not_false_eq_true, if_true]

/-- Witness for C8: the file of page 7 is unreadable, page 8 has a valid
document; the batch returns `FILE_READ_ERROR` and page 8 is untouched. -/
theorem C8_witness :
    import_doc ⟨fun s => s, ⟨[⟨1, 7, 1⟩, ⟨1, 8, 2⟩], []⟩,
        ⟨[(str "7-a.md", none), (str "8-b.md", some [str "---\n", str "Title: B\n",
          str "---\n", str "x\n"])], [], []⟩⟩
      ⟨⟨[⟨1, 9, str "b"⟩], [], []⟩, ⟨1, []⟩⟩ 9 (str "7-a.md") =
      .ok (⟨FILE_READ_ERROR, .str []⟩, ⟨⟨[⟨1, 9, str "b"⟩], [], []⟩, ⟨1, []⟩⟩) ∧
    import_books ⟨fun s => s, ⟨[⟨1, 7, 1⟩, ⟨1, 8, 2⟩], []⟩,
        ⟨[(str "7-a.md", none), (str "8-b.md", some [str "---\n", str "Title: B\n",
          str "---\n", str "x\n"])], [], []⟩⟩
      ⟨⟨[⟨1, 9, str "b"⟩], [], []⟩, ⟨1, []⟩⟩ 9 =
      .ok (⟨FILE_READ_ERROR, .str []⟩, ⟨⟨[⟨1, 9, str "b"⟩], [], []⟩, ⟨1, []⟩⟩) :=
  ⟨by decide,
    C8_import_books_stops_at_first_error
      ⟨fun s => s, ⟨[⟨1, 7, 1⟩, ⟨1, 8, 2⟩], []⟩,
        ⟨[(str "7-a.md", none), (str "8-b.md", some [str "---\n", str "Title: B\n",
          str "---\n", str "x\n"])], [], []⟩⟩
      ⟨⟨[⟨1, 9, str "b"⟩], [], []⟩, ⟨1, []⟩⟩
      ⟨⟨[⟨1, 9, str "b"⟩], [], []⟩, ⟨1, []⟩⟩
      ⟨⟨[⟨1, 9, str "b"⟩], [], []⟩, ⟨1, []⟩⟩ 9
      [(7, str "7-a.md"), (8, str "8-b.md")] [] [8] 7 (str "7-a.md")
      ⟨FILE_READ_ERROR, .str []⟩ (by decide) (by decide) (by decide) (by decide) (by decide)
      (by decide)⟩

/-- A successful `find?` is preserved by appending rows on the right
(used to transfer sqlite lookups across state growth). -/
theorem find?_append_some {α : Type} (p : α → Bool) (l l2 : List α) (a : α)
    (h : l.find? p = some a) : (l ++ l2).find? p = some a := by
  induction l with
  | nil => cases h
  | cons x rest ih =>
    by_cases hx : p x
    · rw [List.find?_cons_of_pos _ hx] at h
      rw [List.cons_append, List.find?_cons_of_pos _ hx]
      exact h
    · rw [List.find?_cons_of_neg _ (by simpa using hx)] at h
      rw [List.cons_append, List.find?_cons_of_neg _ (by simpa using hx)]
      exact ih h

/-- A failed `find?` defers to the appended rows. -/
theorem find?_append_none {α : Type} (p : α → Bool) (l l2 : List α)
    (h : l.find? p = none) : (l ++ l2).find? p = l2.find? p := by
  induction l with
  | nil => rfl
  | cons x rest ih =>
    by_cases hx : p x
    · rw [List.find?_cons_of_pos _ hx] at h
      cases h
    · rw [List.find?_cons_of_neg _ (by simpa using hx)] at h
      rw [List.cons_append, List.find?_cons_of_neg _ (by simpa using hx)]
      exact ih h

/-- The f-string of an integer response datum is `pyStrInt`. -/
theorem pyStrData_int (i : Int) : pyStrData (.int i) = pyStrInt i := rfl

/-- The transclusion-stub body built by `import_doc` for a non-canonical
owning book: exactly the marker with the canonical destination page id. -/
def stubText (canonId : Int) : Str :=
  str "\x7b\x7b@" ++ pyStrInt canonId ++ str "\x7d\x7d"

/-- The state after the stub phase of `import_doc`: one fresh stub page
per remaining owning book, carrying the canonical row's title and slug
and the digest of the transclusion marker. -/
def stubState (ctx : Ctx) (src_page_id canonId : Int) (crow : PageRow) :
    List (Int × Int × Str) → St → St
  | [], st => st
  | (_, bid, bslug) :: rest, st =>
    stubState ctx src_page_id canonId crow rest
      ⟨⟨st.sq3.books,
        st.sq3.pages ++ [⟨src_page_id, st.wiki.nextId, bid, some bslug, crow.bs_page_slug,
          crow.bs_page_title, ctx.digest (stubText canonId)⟩],
        st.sq3.attachments⟩,
        ⟨st.wiki.nextId + 1,
          st.wiki.log ++ [.createPage crow.bs_page_title (stubText canonId) none
            (.inl bid)]⟩⟩

/-- After the canonical book produced page `canonId`, the remaining
owning books (with existing book rows and no page rows yet) each get a
fresh stub page whose body is the transclusion marker and whose title
and slug come from the canonical row. -/
theorem import_doc_loop_stub_phase (ctx : Ctx) (fuel : Nat) (file_name : Str)
    (src_page_id canonId : Int) (crow : PageRow) (pt : Sum IResponse Str)
    (hpt : parse_page_title ctx file_name = .ok pt) :
    ∀ (bl : List (Int × Int × Str)) (T : St),
    (∀ t ∈ bl, T.sq3.books.find? (fun r => r.src_id == t.1) = some ⟨t.1, t.2.1, t.2.2⟩) →
    (∀ t ∈ bl, T.sq3.pages.find?
      (fun r => r.src_page_id == src_page_id && r.bs_book_id == t.2.1) = none) →
    (bl.map (fun t => t.2.1)).Nodup →
    (∀ t ∈ bl, t.2.1 ≠ -1) →
    T.sq3.pages.find? (fun r => pyDataEqInt (.int canonId) r.bs_page_id) = some crow →
    import_doc_loop ctx fuel file_name src_page_id (bl.map (fun t => t.1))
      (some (.int canonId)) T =
      .ok (⟨SUCCESS, .str []⟩, stubState ctx src_page_id canonId crow bl T) := by
  intro bl
  induction bl with
  | nil =>
    intro T _ _ _ _ _
    rfl
  | cons t rest ih =>
    obtain ⟨b, bid, bslug⟩ := t
    intro T hB hP hnd hne hc
    have hbt : ∃ v, (if first_page_of_book ctx.mydb b src_page_id then
        parse_page_title ctx file_name else .ok (.inr (pyStrInt b))) = .ok v := by
      cases hfp : first_page_of_book ctx.mydb b src_page_id
      · exact ⟨.inr (pyStrInt b), by simp⟩
      · exact ⟨pt, by simpa using hpt⟩
    obtain ⟨v, hbt⟩ := hbt
    rw [List.map_cons]
    unfold import_doc_loop
    rw [hbt]
    simp only [get_or_create_book_found T b v ⟨b, bid, bslug⟩ (hB (b, bid, bslug) (by simp))]
    simp only [get_page_none T.sq3 bid src_page_id (hP (b, bid, bslug) (by simp))]
    simp only [hc, pyStrData_int]
    simp only [import_page_text_create ctx T crow.bs_page_title
      (str "\x7b\x7b@" ++ pyStrInt canonId ++ str "\x7d\x7d") none bid (-1) src_page_id
      (some bslug) crow.bs_page_slug (hne (b, bid, bslug) (by simp))]
    simp only [SUCCESS, ne_eq, not_true_eq_false, if_false]
    rw [show stubState ctx src_page_id canonId crow ((b, bid, bslug) :: rest) T
        = stubState ctx src_page_id canonId crow rest
          ⟨⟨T.sq3.books,
            T.sq3.pages ++ [⟨src_page_id, T.wiki.nextId, bid, some bslug, crow.bs_page_slug,
              crow.bs_page_title, ctx.digest (stubText canonId)⟩],
            T.sq3.attachments⟩,
            ⟨T.wiki.nextId + 1,
              T.wiki.log ++ [.createPage crow.bs_page_title (stubText canonId) none
                (.inl bid)]⟩⟩ from rfl]
    refine ih _ ?_ ?_ ?_ ?_ ?_
    · intro t2 ht2
      exact hB t2 (by simp [ht2])
    · intro t2 ht2
      refine find?_append_none _ _ _ (hP t2 (by simp [ht2])) |>.trans ?_
      have hbid : bid ≠ t2.2.1 := by
        intro heq
        rw [List.map_cons] at hnd
        have := (List.nodup_cons.mp hnd).1
        exact this (heq ▸ List.mem_map_of_mem (fun t => t.2.1) ht2)
      have hbf : (bid == t2.2.1) = false := beq_eq_false_iff_ne.mpr hbid
      simp [List.find?, hbf]
    · rw [List.map_cons] at hnd
      exact (List.nodup_cons.mp hnd).2
    · intro t2 ht2
      exact hne t2 (by simp [ht2])
    · exact find?_append_some _ _ _ _ hc

/-- C5: for a legacy page owned by more than one legacy book, exactly
one destination page — the one created for the first owning book in
catalog order — receives the parsed-and-transformed content `t1`; every
subsequent owning book gets a destination page whose body is exactly the
transclusion marker `\x7b\x7b@<canonical id>\x7d\x7d` and which reuses
the canonical page's title and slug. -/
theorem C5_canonical_and_reference_stubs (ctx : Ctx) (st : St) (fuel : Nat)
    (file_name n0 t1 : Str) (tg1 : List Tag) (pt : Sum IResponse Str)
    (i : Nat) (src_page_id b0 bid0 : Int) (bslug0 : Str) (bl : List (Int × Int × Str))
    (hfind : findSub ['-'] file_name = some i)
    (hint : pyInt (file_name.take i) = .ok src_page_id)
    (hbooks : ctx.mydb.booksOfPage src_page_id = b0 :: bl.map (fun t => t.1))
    (hshared : bl ≠ [])
    (hpt : parse_page_title ctx file_name = .ok pt)
    (hB0 : st.sq3.books.find? (fun r => r.src_id == b0) = some ⟨b0, bid0, bslug0⟩)
    (hB : ∀ t ∈ bl, st.sq3.books.find? (fun r => r.src_id == t.1)
      = some ⟨t.1, t.2.1, t.2.2⟩)
    (hP0 : st.sq3.pages.find?
      (fun r => r.src_page_id == src_page_id && r.bs_book_id == bid0) = none)
    (hP : ∀ t ∈ bl, st.sq3.pages.find?
      (fun r => r.src_page_id == src_page_id && r.bs_book_id == t.2.1) = none)
    (hnd : (bid0 :: bl.map (fun t => t.2.1)).Nodup)
    (hne0 : bid0 ≠ -1) (hne : ∀ t ∈ bl, t.2.1 ≠ -1)
    (hids : ∀ row ∈ st.sq3.pages,
      pyDataEqInt (.int st.wiki.nextId) row.bs_page_id = false)
    (hbody : import_page_body ctx st.sq3 fuel file_name src_page_id
      = .ok (.inr (n0, t1, tg1)))
    (hn : n0 ≠ []) (htg : tg1 ≠ [])
    (hnofiles : assocLookup (pyStrInt src_page_id) ctx.fs.files = none) :
    import_doc ctx st fuel file_name =
      .ok (⟨SUCCESS, .str []⟩,
        stubState ctx src_page_id st.wiki.nextId
          ⟨src_page_id, st.wiki.nextId, bid0, some bslug0,
            some (strReplace [' '] ['-'] (pyLower n0)), n0, ctx.digest t1⟩
          bl
          ⟨⟨st.sq3.books,
            st.sq3.pages ++ [⟨src_page_id, st.wiki.nextId, bid0, some bslug0,
              some (strReplace [' '] ['-'] (pyLower n0)), n0, ctx.digest t1⟩],
            st.sq3.attachments⟩,
            ⟨st.wiki.nextId + 1,
              st.wiki.log ++ [.createPage n0 t1 (some tg1) (.inl bid0)]⟩⟩) := by
  have hbt : ∃ v, (if first_page_of_book ctx.mydb b0 src_page_id then
      parse_page_title ctx file_name else .ok (.inr (pyStrInt b0))) = .ok v := by
    cases hfp : first_page_of_book ctx.mydb b0 src_page_id
    · exact ⟨.inr (pyStrInt b0), by simp⟩
    · exact ⟨pt, by simpa using hpt⟩
  obtain ⟨v, hbt⟩ := hbt
  rw [import_doc_eq_loop ctx st fuel file_name i src_page_id hfind hint, hbooks]
  unfold import_doc_loop
  rw [hbt]
  simp only [get_or_create_book_found st b0 v ⟨b0, bid0, bslug0⟩ hB0]
  simp only [get_page_none st.sq3 bid0 src_page_id hP0]
  simp only [import_page_ok ctx st fuel file_name bid0 (-1) src_page_id (-1) (some bslug0)
    n0 t1 tg1 hbody hn htg]
  simp only [import_page_text_create ctx st n0 t1 (some tg1) bid0 (-1) src_page_id
    (some bslug0) (some (strReplace [' '] ['-'] (pyLower n0))) hne0]
  simp only [SUCCESS, ne_eq, not_true_eq_false, if_false]
  simp only [import_attachments_nodir ctx
    ⟨⟨st.sq3.books,
      st.sq3.pages ++ [⟨src_page_id, st.wiki.nextId, bid0, some bslug0,
        some (strReplace [' '] ['-'] (pyLower n0)), n0, ctx.digest t1⟩],
      st.sq3.attachments⟩,
      ⟨st.wiki.nextId + 1,
        st.wiki.log ++ [.createPage n0 t1 (some tg1) (.inl bid0)]⟩⟩
    (pyStrInt src_page_id) (.int st.wiki.nextId) hnofiles]
  refine import_doc_loop_stub_phase ctx fuel file_name src_page_id st.wiki.nextId _ pt hpt bl
    ⟨⟨st.sq3.books,
      st.sq3.pages ++ [⟨src_page_id, st.wiki.nextId, bid0, some bslug0,
        some (strReplace [' '] ['-'] (pyLower n0)), n0, ctx.digest t1⟩],
      st.sq3.attachments⟩,
      ⟨st.wiki.nextId + 1,
        st.wiki.log ++ [.createPage n0 t1 (some tg1) (.inl bid0)]⟩⟩ ?_ ?_ ?_ ?_ ?_
  · intro t2 ht2
    exact hB t2 ht2
  · intro t2 ht2
    refine (find?_append_none _ _ _ (hP t2 ht2)).trans ?_
    have hbid : bid0 ≠ t2.2.1 := by
      intro heq
      exact (List.nodup_cons.mp hnd).1 (heq ▸ List.mem_map_of_mem (fun t => t.2.1) ht2)
    have hbf : (bid0 == t2.2.1) = false := beq_eq_false_iff_ne.mpr hbid
    simp [List.find?, hbf]
  · exact (List.nodup_cons.mp hnd).2
  · exact hne
  · refine (find?_append_none _ _ _ (List.find?_eq_none.mpr ?_)).trans ?_
    · intro row hrow
      simp [hids row hrow]
    · simp [List.find?, pyDataEqInt]

/-- Witness for C5: page 7 owned by books 5 and 9; the page created for
book 5 holds the real content, the page created for book 9 holds exactly
`\x7b\x7b@3\x7d\x7d` with the canonical page's title and slug. -/
theorem C5_witness :
    import_doc ⟨fun s => s, ⟨[⟨5, 7, 1⟩, ⟨9, 7, 1⟩], []⟩,
        ⟨[(str "7-p.md", some [str "---\n", str "Title: My Book\n", str "tags: [x]\n",
          str "---\n", str "hello\n"])], [], []⟩⟩
      ⟨⟨[⟨5, 1, str "alpha"⟩, ⟨9, 2, str "beta"⟩], [], []⟩, ⟨3, []⟩⟩ 20 (str "7-p.md") =
      .ok (⟨SUCCESS, .str []⟩,
        ⟨⟨[⟨5, 1, str "alpha"⟩, ⟨9, 2, str "beta"⟩],
          [⟨7, 3, 1, some (str "alpha"), some (str "my-book"), str "My Book",
            str "---\n    Title: My Book\n    tags: [x]\n---\n\nhello\n"⟩,
           ⟨7, 4, 2, some (str "beta"), some (str "my-book"), str "My Book",
            str "\x7b\x7b@3\x7d\x7d"⟩],
          []⟩,
          ⟨5, [.createPage (str "My Book")
              (str "---\n    Title: My Book\n    tags: [x]\n---\n\nhello\n")
              (some [⟨str "x", none⟩]) (.inl 1),
            .createPage (str "My Book") (str "\x7b\x7b@3\x7d\x7d") none (.inl 2)]⟩⟩) :=
  C5_canonical_and_reference_stubs _ _ 20 (str "7-p.md") (str "My Book")
    (str "---\n    Title: My Book\n    tags: [x]\n---\n\nhello\n") [⟨str "x", none⟩]
    (.inr (str "My Book")) 1 7 5 1 (str "alpha") [(9, 2, str "beta")]
    (by decide) (by decide) (by decide) (by decide) (by decide) (by decide) (by decide)
    (by decide) (by decide) (by decide) (by decide) (by decide) (by decide) (by decide)
    (by decide) (by decide) (by decide)

/-- When every remaining owning book already has its book row and a page
row whose stored digest equals the digest of the transclusion stub, the
stub phase of `import_doc` is a no-op: no wiki call, state unchanged. -/
theorem import_doc_loop_noop_stub (ctx : Ctx) (st : St) (fuel : Nat) (f : Str)
    (p pid0 : Int) (pt : Sum IResponse Str)
    (hpt : parse_page_title ctx f = .ok pt) :
    ∀ bs : List Int,
    (∀ b ∈ bs, ∃ brow prow qrow,
      st.sq3.books.find? (fun r => r.src_id == b) = some brow ∧
      st.sq3.pages.find? (fun r => r.src_page_id == p && r.bs_book_id == brow.bs_id)
        = some prow ∧ prow.bs_page_id ≠ -1 ∧
      st.sq3.pages.find?
        (fun r => r.bs_book_id == brow.bs_id && r.bs_page_id == prow.bs_page_id)
        = some qrow ∧
      qrow.content_md5sum
        = ctx.digest (str "\x7b\x7b@" ++ pyStrInt pid0 ++ str "\x7d\x7d")) →
    import_doc_loop ctx fuel f p bs (some (.int pid0)) st =
      .ok (⟨SUCCESS, .str []⟩, st) := by
  intro bs
  induction bs with
  | nil =>
    intro _
    rfl
  | cons b rest ih =>
    intro H
    obtain ⟨brow, prow, qrow, hB, hP, hpid, hQ, hdg⟩ := H b (by simp)
    have hbt : ∃ v, (if first_page_of_book ctx.mydb b p then
        parse_page_title ctx f else .ok (.inr (pyStrInt b))) = .ok v := by
      cases hfp : first_page_of_book ctx.mydb b p
      · exact ⟨.inr (pyStrInt b), by simp⟩
      · exact ⟨pt, by simpa using hpt⟩
    obtain ⟨v, hbt⟩ := hbt
    unfold import_doc_loop
    rw [hbt]
    simp only [get_or_create_book_found st b v brow hB]
    simp only [get_page_found st.sq3 brow.bs_id p prow hP]
    simp only [pyStrData_int]
    simp only [import_page_text_unchanged ctx st _ _ none brow.bs_id (-1) p
      prow.bs_page_id (some brow.bs_slug) _ qrow hpid hQ hdg]
    simp only [SUCCESS, ne_eq, not_true_eq_false, if_false]
    exact ih (fun b2 hb2 => H b2 (by simp [hb2]))

/-- When all book and page mappings for a document already exist and
every stored digest equals the digest of the freshly recomputed body
(resp. transclusion stub), `import_doc` is a complete no-op. -/
theorem import_doc_noop (ctx : Ctx) (st : St) (fuel : Nat) (f : Str)
    (i : Nat) (p b0 : Int) (bs : List Int) (pt : Sum IResponse Str)
    (brow0 : BookRow) (prow0 qrow0 : PageRow) (n0 t1 : Str) (tg1 : List Tag)
    (hfind : findSub ['-'] f = some i)
    (hint : pyInt (f.take i) = .ok p)
    (hbooks : ctx.mydb.booksOfPage p = b0 :: bs)
    (hpt : parse_page_title ctx f = .ok pt)
    (hB0 : st.sq3.books.find? (fun r => r.src_id == b0) = some brow0)
    (hP0 : st.sq3.pages.find?
      (fun r => r.src_page_id == p && r.bs_book_id == brow0.bs_id) = some prow0)
    (hpid0 : prow0.bs_page_id ≠ -1)
    (hbody : import_page_body ctx st.sq3 fuel f p = .ok (.inr (n0, t1, tg1)))
    (hn : n0 ≠ []) (htg : tg1 ≠ [])
    (hQ0 : st.sq3.pages.find?
      (fun r => r.bs_book_id == brow0.bs_id && r.bs_page_id == prow0.bs_page_id)
      = some qrow0)
    (hdg0 : qrow0.content_md5sum = ctx.digest t1)
    (hatt : import_attachments ctx st (pyStrInt p) (.int prow0.bs_page_id)
      = (⟨SUCCESS, .str []⟩, st))
    (hbs : ∀ b ∈ bs, ∃ brow prow qrow,
      st.sq3.books.find? (fun r => r.src_id == b) = some brow ∧
      st.sq3.pages.find? (fun r => r.src_page_id == p && r.bs_book_id == brow.bs_id)
        = some prow ∧ prow.bs_page_id ≠ -1 ∧
      st.sq3.pages.find?
        (fun r => r.bs_book_id == brow.bs_id && r.bs_page_id == prow.bs_page_id)
        = some qrow ∧
      qrow.content_md5sum
        = ctx.digest (str "\x7b\x7b@" ++ pyStrInt prow0.bs_page_id ++ str "\x7d\x7d")) :
    import_doc ctx st fuel f = .ok (⟨SUCCESS, .str []⟩, st) := by
  have hbt : ∃ v, (if first_page_of_book ctx.mydb b0 p then
      parse_page_title ctx f else .ok (.inr (pyStrInt b0))) = .ok v := by
    cases hfp : first_page_of_book ctx.mydb b0 p
    · exact ⟨.inr (pyStrInt b0), by simp⟩
    · exact ⟨pt, by simpa using hpt⟩
  obtain ⟨v, hbt⟩ := hbt
  rw [import_doc_eq_loop ctx st fuel f i p hfind hint, hbooks]
  unfold import_doc_loop
  rw [hbt]
  simp only [get_or_create_book_found st b0 v brow0 hB0]
  simp only [get_page_found st.sq3 brow0.bs_id p prow0 hP0]
  simp only [import_page_ok ctx st fuel f brow0.bs_id (-1) p prow0.bs_page_id
    (some brow0.bs_slug) n0 t1 tg1 hbody hn htg]
  simp only [import_page_text_unchanged ctx st n0 t1 (some tg1) brow0.bs_id (-1) p
    prow0.bs_page_id (some brow0.bs_slug) (some (strReplace [' '] ['-'] (pyLower n0)))
    qrow0 hpid0 hQ0 hdg0]
  simp only [SUCCESS, ne_eq, not_true_eq_false, if_false]
  simp only [hatt]
  simp only [SUCCESS, ne_eq, not_true_eq_false, if_false]
  exact import_doc_loop_noop_stub ctx st fuel f p prow0.bs_page_id pt hpt bs hbs

/-- When every catalog row's document import is a no-op, the whole
catalog loop is a no-op. -/
theorem import_books_loop_noop (ctx : Ctx) (fuel : Nat) (pages : List (Int × Str)) :
    ∀ (rows : List Int) (st : St),
    (∀ r ∈ rows, ∀ f, dictLookup r pages = some f →
      import_doc ctx st fuel f = .ok (⟨SUCCESS, .str []⟩, st)) →
    import_books_loop ctx fuel pages rows st = .ok (⟨SUCCESS, .str []⟩, st) := by
  intro rows
  induction rows with
  | nil =>
    intro st _
    rfl
  | cons r rest ih =>
    intro st H
    unfold import_books_loop
    rcases hl : dictLookup r pages with _ | f
    · exact ih st (fun r2 hr2 => H r2 (by simp [hr2]))
    · simp only [H r (by simp) f hl]
      simp only [SUCCESS, ne_eq, not_true_eq_false, if_false]
      exact ih st (fun r2 hr2 => H r2 (by simp [hr2]))

/-- Concrete source tree: book 1 owns page 7, whose document links to
the attachment file `a.txt` of its own `files` directory. -/
def c2ctx : Ctx := ⟨fun s => s, ⟨[⟨1, 7, 1⟩], []⟩,
  ⟨[(str "7-p.md", some [str "---\n", str "Title: T\n", str "tags: [x]\n",
    str "---\n", str "see (../files/7/a.txt)\n"])], [],
   [(str "7", [⟨str "a.txt", [65]⟩])]⟩⟩

/-- The store and wiki after a first full run over `c2ctx` from an empty
store: the stored body still carries the raw `(../files/7/a.txt)` link,
because the attachment row is created only after the body was
transformed. -/
def c2store1 : St :=
  ⟨⟨[⟨1, 1, str "t"⟩],
    [⟨7, 2, 1, some (str "t"), some (str "t"), str "T",
      str "---\n    Title: T\n    tags: [x]\n---\n\nsee (../files/7/a.txt)\n"⟩],
    [⟨str "a.txt", .int 2, 3⟩]⟩,
    ⟨4, [.createBook (.inr (str "T")),
      .createPage (str "T")
        (str "---\n    Title: T\n    tags: [x]\n---\n\nsee (../files/7/a.txt)\n")
        (some [⟨str "x", none⟩]) (.inl 1),
      .createAttachment (str "a.txt") (.int 2)]⟩⟩

/-- The store and wiki after a second full run over the unmodified
`c2ctx`: the recomputed body now resolves the attachment link to
`(/attachments/3)`, so the page is re-published with `update_page`. -/
def c2store2 : St :=
  ⟨⟨[⟨1, 1, str "t"⟩],
    [⟨7, 2, 1, some (str "t"), some (str "t"), str "T",
      str "---\n    Title: T\n    tags: [x]\n---\n\nsee (/attachments/3)\n"⟩],
    [⟨str "a.txt", .int 2, 3⟩]⟩,
    ⟨4, c2store1.wiki.log ++
      [.updatePage 1 2 (str "T")
        (str "---\n    Title: T\n    tags: [x]\n---\n\nsee (/attachments/3)\n")
        (some [⟨str "x", none⟩])]⟩⟩

/-- Counterexample to C2: over an unmodified source tree, the second
full pipeline run makes an additional `update_page` call — the body
recomputed during the second run resolves the attachment link through
the now-populated mappings store, so its digest differs from the digest
stored by the first run. -/
theorem C2_counterexample :
    import_books c2ctx ⟨⟨[], [], []⟩, ⟨1, []⟩⟩ 60 = .ok (⟨SUCCESS, .str []⟩, c2store1) ∧
    import_books c2ctx c2store1 60 = .ok (⟨SUCCESS, .str []⟩, c2store2) ∧
    c2store2.wiki.log = c2store1.wiki.log ++
      [.updatePage 1 2 (str "T")
        (str "---\n    Title: T\n    tags: [x]\n---\n\nsee (/attachments/3)\n")
        (some [⟨str "x", none⟩])] :=
  ⟨by decide, by decide, by decide⟩

/-- C2 (amended): a further run makes zero additional wiki calls exactly
when every recomputed body digest equals the stored one.  Part one: if
every catalog document's import is a no-op, the whole pipeline run
returns success with the state unchanged.  Part two: a document's import
is a no-op whenever its book and page mappings already exist and the
stored digests equal the digests of the freshly recomputed body and of
the transclusion stub. -/
theorem C2_second_run_noop :
    (∀ (ctx : Ctx) (st : St) (fuel : Nat) (pages : List (Int × Str)),
      buildPagesDict ctx.fs.docs [] = .ok pages →
      (∀ r ∈ ctx.mydb.orderedPages, ∀ f, dictLookup r pages = some f →
        import_doc ctx st fuel f = .ok (⟨SUCCESS, .str []⟩, st)) →
      import_books ctx st fuel = .ok (⟨SUCCESS, .str []⟩, st)) ∧
    (∀ (ctx : Ctx) (st : St) (fuel : Nat) (f : Str) (i : Nat) (p b0 : Int)
      (bs : List Int) (pt : Sum IResponse Str) (brow0 : BookRow)
      (prow0 qrow0 : PageRow) (n0 t1 : Str) (tg1 : List Tag),
      findSub ['-'] f = some i →
      pyInt (f.take i) = .ok p →
      ctx.mydb.booksOfPage p = b0 :: bs →
      parse_page_title ctx f = .ok pt →
      st.sq3.books.find? (fun r => r.src_id == b0) = some brow0 →
      st.sq3.pages.find?
        (fun r => r.src_page_id == p && r.bs_book_id == brow0.bs_id) = some prow0 →
      prow0.bs_page_id ≠ -1 →
      import_page_body ctx st.sq3 fuel f p = .ok (.inr (n0, t1, tg1)) →
      n0 ≠ [] → tg1 ≠ [] →
      st.sq3.pages.find?
        (fun r => r.bs_book_id == brow0.bs_id && r.bs_page_id == prow0.bs_page_id)
        = some qrow0 →
      qrow0.content_md5sum = ctx.digest t1 →
      import_attachments ctx st (pyStrInt p) (.int prow0.bs_page_id)
        = (⟨SUCCESS, .str []⟩, st) →
      (∀ b ∈ bs, ∃ brow prow qrow,
        st.sq3.books.find? (fun r => r.src_id == b) = some brow ∧
        st.sq3.pages.find? (fun r => r.src_page_id == p && r.bs_book_id == brow.bs_id)
          = some prow ∧ prow.bs_page_id ≠ -1 ∧
        st.sq3.pages.find?
          (fun r => r.bs_book_id == brow.bs_id && r.bs_page_id == prow.bs_page_id)
          = some qrow ∧
        qrow.content_md5sum
          = ctx.digest (str "\x7b\x7b@" ++ pyStrInt prow0.bs_page_id ++ str "\x7d\x7d")) →
      import_doc ctx st fuel f = .ok (⟨SUCCESS, .str []⟩, st)) := by
  constructor
  · intro ctx st fuel pages hp H
    unfold import_books
    simp only [hp]
    exact import_books_loop_noop ctx fuel pages ctx.mydb.orderedPages st H
  · intro ctx st fuel f i p b0 bs pt brow0 prow0 qrow0 n0 t1 tg1
      hfind hint hbooks hpt hB0 hP0 hpid0 hbody hn htg hQ0 hdg0 hatt hbs
    exact import_doc_noop ctx st fuel f i p b0 bs pt brow0 prow0 qrow0 n0 t1 tg1
      hfind hint hbooks hpt hB0 hP0 hpid0 hbody hn htg hQ0 hdg0 hatt hbs

/-- Witness for C2 (amended): from the state left by the second run —
whose stored digests do match the recomputed bodies — a further full run
and a further document import are both no-ops. -/
theorem C2_witness :
    import_books c2ctx c2store2 60 = .ok (⟨SUCCESS, .str []⟩, c2store2) ∧
    import_doc c2ctx c2store2 60 (str "7-p.md") = .ok (⟨SUCCESS, .str []⟩, c2store2) :=
  ⟨C2_second_run_noop.1 c2ctx c2store2 60 [(7, str "7-p.md")] (by decide)
      (fun r hr f hf => by
        have hr7 : r = 7 := by
          have ho : c2ctx.mydb.orderedPages = [7] := by decide
          rw [ho] at hr
          simpa using hr
        subst hr7
        have hf2 : f = str "7-p.md" := by
          simp only [dictLookup] at hf
          have := hf
          simp at this
          exact this.symm
        subst hf2
        decide),
    C2_second_run_noop.2 c2ctx c2store2 60 (str "7-p.md") 1 7 1 [] (.inr (str "T"))
      ⟨1, 1, str "t"⟩
      ⟨7, 2, 1, some (str "t"), some (str "t"), str "T",
        str "---\n    Title: T\n    tags: [x]\n---\n\nsee (/attachments/3)\n"⟩
      ⟨7, 2, 1, some (str "t"), some (str "t"), str "T",
        str "---\n    Title: T\n    tags: [x]\n---\n\nsee (/attachments/3)\n"⟩
      (str "T") (str "---\n    Title: T\n    tags: [x]\n---\n\nsee (/attachments/3)\n")
      [⟨str "x", none⟩]
      (by decide) (by decide) (by decide) (by decide) (by decide) (by decide) (by decide)
      (by decide) (by decide) (by decide) (by decide) (by decide) (by decide)
      (fun b hb => nomatch hb)⟩
